import Mathlib

set_option maxRecDepth 10000

/-
  Verification of the maternal-health synthetic-data repository.

  The repository has two batch scripts:
    scripts/generate_material_health_data.py  (the generator), and
    scripts/load_data_to_postgres.py          (the loader).

  This file gives a shallow embedding of both scripts and proves / refutes
  the spec claims about them.

  Modelling conventions, used throughout:
  * Randomness.  Python's random module, numpy's global generator and the
    Faker library's internal generator are three separate pseudo-random
    streams.  Each is modelled as an oracle (a function Nat -> Nat giving
    the stream of raw draws) plus a position.  All universally quantified
    theorems below hold for EVERY oracle, hence in particular for the
    actual Mersenne Twister streams of the real process.
  * random.randint(a, b) is modelled as a + draw % (b + 1 - a), which is
    in [a, b] by construction, matching the contract of the library call.
  * random.choices(population, weights) and random.choice(population)
    return a member of the population; the weights only shape the
    distribution, never the support, so the model selects the member at
    position draw % length.
  * random.random() returns a value in [0, 1); it is modelled as the
    rational (draw % 1000000) / 1000000.  Floating-point values of the
    source are modelled as exact rationals; int() applied to a nonnegative
    float is modelled as the rational floor, and int() applied to a
    possibly negative value as truncation toward zero (Int.tdiv), matching
    Python semantics up to rounding of the underlying reals.  No claim
    proved below depends on the rounding of a float.
  * np.random.normal has full support on the reals and is composed with
    int() by the source, so the model draws an arbitrary integer from the
    numpy stream.
  * Dates are rata-die day numbers (Int); datetime(y, m, d) and .year /
    .month / .day are implemented by the standard Gregorian conversions.
    timedelta(days = k) is addition of k.  strftime / strptime round-trip
    a date through its string form, so the model keeps the day number.
  * Python conditional expressions and the short-circuit operators consume
    random draws only in the branch actually evaluated; the model mirrors
    this draw-for-draw.
-/

/-- One pseudo-random stream: the oracle of raw draws and the position. -/
structure Rng where
  stream : Nat → Nat
  pos : Nat

/-- Consume one raw draw from the stream. -/
def Rng.next (g : Rng) : Nat × Rng :=
  (g.stream g.pos, { g with pos := g.pos + 1 })

/-- random.randint(a, b): uniform on the inclusive range [a, b]. -/
def randint (a b : Nat) (g : Rng) : Nat × Rng :=
  let n := (Rng.next g).1
  (a + n % (b + 1 - a), (Rng.next g).2)

/-- random.randint(a, b) for a possibly negative range (the source calls
it with -5..5 and -3..3). -/
def randintI (a b : Int) (g : Rng) : Int × Rng :=
  let n := (Rng.next g).1
  (a + (n : Int) % (b + 1 - a), (Rng.next g).2)

/-- Denominator used to model random.random() as an exact rational. -/
def unitDenom : Nat := 1000000

/-- random.random(): a value in [0, 1), modelled as an exact rational. -/
def randUnit (g : Rng) : ℚ × Rng :=
  let n := (Rng.next g).1
  (mkRat (n % unitDenom : Nat) unitDenom, (Rng.next g).2)

/-- random.choices(population, weights)[0] and random.choice(population):
a member of the population (the weights shape only the distribution). -/
def chooseFrom [Inhabited α] (xs : List α) (g : Rng) : α × Rng :=
  let n := (Rng.next g).1
  (xs.getD (n % xs.length) default, (Rng.next g).2)

/-- random.uniform(a, b). -/
def randUniform (a b : ℚ) (g : Rng) : ℚ × Rng :=
  let u := (randUnit g).1
  (a + (b - a) * u, (randUnit g).2)

/-- Python round(x, 1); the tie-breaking convention of the source is
immaterial to every claim, the model rounds half up. -/
def round1 (x : ℚ) : ℚ := mkRat (Int.floor (x * 10 + mkRat 1 2)) 10

/-- Map a raw draw to an arbitrary integer (both signs reachable). -/
def intOfNat (n : Nat) : Int :=
  if n % 2 = 0 then ((n / 2 : Nat) : Int) else -(((n / 2 : Nat) : Int) + 1)

/-- int(np.random.normal(mu, sigma)): the normal distribution has full
support, so composed with int() this is an arbitrary integer draw. -/
def normalInt (mu sigma : Nat) (g : Rng) : Int × Rng :=
  let n := (Rng.next g).1
  let _ := mu
  let _ := sigma
  (intOfNat n, (Rng.next g).2)

/-- Combined state of the three streams of the generator process:
Python's random module (seeded 42), numpy's global generator (seeded 42)
and the Faker library's internal generator (never seeded by the script). -/
structure GS where
  py : Rng
  npy : Rng
  fk : Rng

def liftPy (f : Rng → α × Rng) (s : GS) : α × GS :=
  ((f s.py).1, { s with py := (f s.py).2 })

def liftNp (f : Rng → α × Rng) (s : GS) : α × GS :=
  ((f s.npy).1, { s with npy := (f s.npy).2 })

def liftFk (f : Rng → α × Rng) (s : GS) : α × GS :=
  ((f s.fk).1, { s with fk := (f s.fk).2 })

/- ========================================================================
   Gregorian calendar: dates as rata-die day numbers (days since
   1970-01-01).  Standard civil-calendar conversion algorithms.
   ======================================================================== -/

/-- Day number of the Gregorian date (y, m, d). -/
def daysFromCivil (y : Int) (m d : Nat) : Int :=
  let y2 : Int := if m ≤ 2 then y - 1 else y
  let era : Int := (if 0 ≤ y2 then y2 else y2 - 399) / 400
  let yoe : Nat := (y2 - era * 400).toNat
  let mp : Nat := if m ≤ 2 then m + 9 else m - 3
  let doy : Nat := (153 * mp + 2) / 5 + d - 1
  let doe : Nat := yoe * 365 + yoe / 4 - yoe / 100 + doy
  era * 146097 + (doe : Int) - 719468

/-- Gregorian date (y, m, d) of a day number. -/
def civilFromDays (z0 : Int) : Int × Nat × Nat :=
  let z : Int := z0 + 719468
  let era : Int := (if 0 ≤ z then z else z - 146096) / 146097
  let doe : Nat := (z - era * 146097).toNat
  let yoe : Nat := (doe - doe / 1460 + doe / 36524 - doe / 146096) / 365
  let y : Int := (yoe : Int) + era * 400
  let doy : Nat := doe - (365 * yoe + yoe / 4 - yoe / 100)
  let mp : Nat := (5 * doy + 2) / 153
  let d : Nat := doy - (153 * mp + 2) / 5 + 1
  let m : Nat := if mp < 10 then mp + 3 else mp - 9
  (if m ≤ 2 then y + 1 else y, m, d)

/-- Component accessor: the year of a day number. -/
def yearOf (z : Int) : Int := (civilFromDays z).1

/-- calculate_age_at_date(birth_date, reference_date) of the source. -/
def calculateAgeAtDate (birth ref : Int) : Int :=
  let b := civilFromDays birth
  let r := civilFromDays ref
  let age := r.1 - b.1
  if r.2.1 < b.2.1 ∨ (r.2.1 = b.2.1 ∧ r.2.2 < b.2.2) then age - 1 else age

/-- START_DATE = datetime(2020, 1, 1). -/
def startDate : Int := daysFromCivil 2020 1 1

/-- END_DATE = datetime(2024, 12, 31). -/
def endDate : Int := daysFromCivil 2024 12 31

/-- NUM_PATIENTS of the generator configuration. -/
def NUM_PATIENTS : Nat := 10000

theorem sanity_start_lt_end : startDate < endDate := by decide

/- ========================================================================
   Reference data of the generator (section REFERENCE DATA of the source).
   Region and name strings are ASCII transliterations of the source
   strings (accents and the quote in the PACA region name are elided);
   the exact bytes of these constants are irrelevant to every claim.
   ======================================================================== -/

/-- FRENCH_REGIONS: (region, population share). -/
def frenchRegions : List (String × ℚ) :=
  [("Ile-de-France", 20/100), ("Auvergne-Rhone-Alpes", 12/100),
   ("Nouvelle-Aquitaine", 9/100), ("Occitanie", 9/100),
   ("Hauts-de-France", 9/100), ("Provence-Alpes-Cote dAzur", 8/100),
   ("Grand Est", 8/100), ("Pays de la Loire", 6/100),
   ("Bretagne", 5/100), ("Normandie", 5/100),
   ("Bourgogne-Franche-Comte", 4/100), ("Centre-Val de Loire", 4/100),
   ("Corse", 1/100)]

def FACILITY_TYPES : List String :=
  ["Type I", "Type IIA", "Type IIB", "Type III", "Birth Center"]

def FACILITY_TYPE_WEIGHTS : List ℚ := [30/100, 35/100, 15/100, 18/100, 2/100]

def EDUCATION_LEVELS : List String :=
  ["No diploma", "CAP/BEP", "Baccalaureat", "Bachelor", "Master+"]

def EDUCATION_WEIGHTS : List ℚ := [10/100, 20/100, 20/100, 30/100, 20/100]

/-- region_codes of the source: departement code lists per region, with
default departement 75 for an unknown region. -/
def regionCodes (region : String) : List String :=
  if region = "Ile-de-France" then
    ["75", "77", "78", "91", "92", "93", "94", "95"]
  else if region = "Auvergne-Rhone-Alpes" then
    ["01", "03", "07", "15", "26", "38", "42", "43", "63", "69", "73", "74"]
  else if region = "Nouvelle-Aquitaine" then
    ["16", "17", "19", "23", "24", "33", "40", "47", "64", "79", "86", "87"]
  else if region = "Occitanie" then
    ["09", "11", "12", "30", "31", "32", "34", "46", "48", "65", "66", "81", "82"]
  else if region = "Hauts-de-France" then
    ["02", "59", "60", "62", "80"]
  else if region = "Provence-Alpes-Cote dAzur" then
    ["04", "05", "06", "13", "83", "84"]
  else if region = "Grand Est" then
    ["08", "10", "51", "52", "54", "55", "57", "67", "68", "88"]
  else if region = "Pays de la Loire" then
    ["44", "49", "53", "72", "85"]
  else if region = "Bretagne" then
    ["22", "29", "35", "56"]
  else if region = "Normandie" then
    ["14", "27", "50", "61", "76"]
  else if region = "Bourgogne-Franche-Comte" then
    ["21", "25", "39", "58", "70", "71", "89", "90"]
  else if region = "Centre-Val de Loire" then
    ["18", "28", "36", "37", "41", "45"]
  else if region = "Corse" then
    ["2A", "2B"]
  else ["75"]

/-- Python str(n).zfill(w). -/
def zfill (w n : Nat) : String :=
  let s := toString n
  String.mk (List.replicate (w - s.length) '0') ++ s

/-- The numeric part of an underscore-separated id:
some_id.split(underscore)[1]. -/
def idNum (s : String) : String := (s.splitOn "_").getD 1 ""

/- ========================================================================
   Faker model.  The script builds fake = Faker(fr_FR) and never calls
   Faker.seed; the library keeps its own module-level Random() instance,
   seeded from operating-system entropy at process start, and this
   instance is NOT affected by random.seed(42) or np.random.seed(42).
   Hence Faker draws come from the separate fk stream of GS, whose oracle
   is a function of the process entropy only.  Each provider returns a
   member of a fixed locale word list; representative subsets stand in
   for the full fr_FR lists (the claims depend only on the draws being
   taken from the unseeded stream).
   ======================================================================== -/

def frFemaleFirstNames : List String :=
  ["Marie", "Camille", "Lea", "Chloe", "Emma", "Sophie", "Julie", "Laura"]

def frLastNames : List String :=
  ["Martin", "Bernard", "Dubois", "Thomas", "Robert", "Richard", "Petit", "Durand"]

def frCities : List String :=
  ["Paris", "Marseille", "Lyon", "Toulouse", "Nice", "Nantes", "Strasbourg", "Montpellier"]

def worldCountries : List String :=
  ["Portugal", "Italie", "Espagne", "Allemagne", "Maroc", "Algerie", "Belgique", "Suisse"]

def frFullNames : List String :=
  ["Jean Martin", "Pierre Bernard", "Anne Dubois", "Paul Thomas",
   "Claire Robert", "Luc Richard", "Eva Petit", "Hugo Durand"]

def fakeFirstNameFemale (g : Rng) : String × Rng := chooseFrom frFemaleFirstNames g

def fakeLastName (g : Rng) : String × Rng := chooseFrom frLastNames g

def fakeCity (g : Rng) : String × Rng := chooseFrom frCities g

def fakeCountry (g : Rng) : String × Rng := chooseFrom worldCountries g

def fakeFullName (g : Rng) : String × Rng := chooseFrom frFullNames g

/- ========================================================================
   Helper functions of the generator (section HELPER FUNCTIONS).
   ======================================================================== -/

/-- random.random() < p, the Bernoulli idiom used throughout the source. -/
def randomLt (p : ℚ) (g : Rng) : Bool × Rng :=
  let u := (randUnit g).1
  (decide (u < p), (randUnit g).2)

/-- generate_birth_date() without year bias (the only form the script
calls): a uniform date between START_DATE and END_DATE. -/
def generateBirthDate (g : Rng) : Int × Rng :=
  let daysBetween := (endDate - startDate).toNat
  let r := randint 0 daysBetween g
  (startDate + (r.1 : Int), r.2)

/-- generate_parity(): parity 1..4 with weights 0.40/0.35/0.18/0.07. -/
def generateParity (g : Rng) : Nat × Rng := chooseFrom [1, 2, 3, 4] g

/-- generate_bmi(year): a BMI category (whose weights drift with the
year but whose support does not), then a uniform value in the category
band, rounded to one decimal. -/
def generateBmi (year : Int) (g : Rng) : ℚ × Rng :=
  let _ := year
  let rc := chooseFrom ["underweight", "normal", "overweight", "obese"] g
  let category := rc.1
  if category = "underweight" then
    let ru := randUniform 15 (mkRat 184 10) rc.2
    (round1 ru.1, ru.2)
  else if category = "normal" then
    let ru := randUniform (mkRat 185 10) (mkRat 249 10) rc.2
    (round1 ru.1, ru.2)
  else if category = "overweight" then
    let ru := randUniform 25 (mkRat 299 10) rc.2
    (round1 ru.1, ru.2)
  else
    let ru := randUniform 30 45 rc.2
    (round1 ru.1, ru.2)

/-- generate_smoking_status(year): Bernoulli with the linearly decreasing
rate 0.163 - (year - 2016) * 0.0082. -/
def generateSmokingStatus (year : Int) (g : Rng) : Bool × Rng :=
  let baseRate : ℚ := mkRat 163 1000 - ((year - 2016 : Int) : ℚ) * mkRat 82 10000
  randomLt baseRate g

/- ========================================================================
   Row types of the five tables.  Dates are day numbers; columns that the
   quality-defect injection can set to NULL are Option-typed; columns that
   the source itself sets to None are Option-typed as well.
   ======================================================================== -/

structure Patient where
  patient_id : String
  first_name : String
  last_name : String
  birth_date : Int
  region : String
  postal_code : String
  education_level : Option String
  is_employed : Bool
  has_partner : Bool
  receives_welfare : Bool
  has_health_insurance : Bool
  has_supplementary_insurance : Bool
  nationality : String
deriving DecidableEq, Inhabited, Repr

structure Pregnancy where
  pregnancy_id : String
  patient_id : String
  pregnancy_number : Nat
  lmp_date : Int
  edd : Int
  delivery_date : Int
  maternal_age_at_delivery : Int
  pre_pregnancy_bmi : ℚ
  gestational_weeks : Nat
  initial_risk_score : Nat
  has_gestational_diabetes : Bool
  has_preeclampsia : Bool
  has_placental_issues : Bool
  is_multiple_gestation : Bool
  smoking_3rd_trimester : Bool
  alcohol_during_pregnancy : Bool
  cannabis_use : Bool
  covid_infection : Bool
deriving DecidableEq, Inhabited, Repr

structure Visit where
  visit_id : String
  pregnancy_id : String
  visit_number : Nat
  visit_date : Int
  gestational_week : Nat
  provider_type : String
  bp_systolic : Option Int
  bp_diastolic : Int
  weight_kg : ℚ
  fundal_height_cm : Option Int
  fetal_heart_rate : Option Nat
  protein_in_urine : Bool
  glucose_screening_done : Bool
  down_syndrome_screening_done : Bool
  ultrasound_done : Bool
  risk_score_at_visit : Nat
  notes_length : Nat
deriving DecidableEq, Inhabited, Repr

structure Delivery where
  delivery_id : String
  pregnancy_id : String
  delivery_date : Int
  delivery_time : String
  facility_type : String
  facility_name : String
  labor_induced : Bool
  spontaneous_labor : Bool
  artificial_rupture_membranes : Bool
  oxytocin_augmentation : Bool
  epidural : Bool
  pain_level : String
  delivery_mode : String
  delivery_method : String
  episiotomy : Bool
  perineal_tear : Bool
  perineal_tear_degree : Option Nat
  labor_duration_minutes : Nat
  blood_loss_ml : Nat
  maternal_complications : Option String
  attending_obstetrician : String
  attending_midwife : Option String
deriving DecidableEq, Inhabited, Repr

structure BirthOutcome where
  outcome_id : String
  delivery_id : String
  pregnancy_id : String
  infant_number : Nat
  sex : String
  birth_weight_grams : Int
  birth_length_cm : ℚ
  head_circumference_cm : ℚ
  apgar_1min : Nat
  apgar_5min : Nat
  gestational_age_weeks : Nat
  low_birth_weight : Bool
  preterm_birth : Bool
  neonatal_complications : Option String
  nicu_admission : Bool
  nicu_days : Nat
  breastfeeding_initiation : String
deriving DecidableEq, Inhabited, Repr

/-- The five in-memory tables of the generator. -/
structure Tables where
  patients : List Patient
  pregnancies : List Pregnancy
  visits : List Visit
  deliveries : List Delivery
  outcomes : List BirthOutcome
deriving DecidableEq, Inhabited, Repr

/- ========================================================================
   Section 1 of the generator: the patients table.
   ======================================================================== -/

/-- One iteration of the patients loop (loop index i, patient_id i + 1). -/
def genPatient (i : Nat) (s : GS) : Patient × GS :=
  let patientId := "PAT_" ++ zfill 6 (i + 1)
  let r1 := liftPy (randint 1974 2009) s
  let r2 := liftPy (randint 1 12) r1.2
  let r3 := liftPy (randint 1 28) r2.2
  let patientBirthDate := daysFromCivil (r1.1 : Int) r2.1 r3.1
  let r4 := liftPy (chooseFrom (frenchRegions.map Prod.fst)) r3.2
  let region := r4.1
  let r5 := liftPy (chooseFrom (regionCodes region)) r4.2
  let r6 := liftPy (randint 100 999) r5.2
  let postalCode := r5.1 ++ toString r6.1
  let r7 := liftPy (chooseFrom EDUCATION_LEVELS) r6.2
  let r8 := liftPy (randomLt (mkRat 75 100)) r7.2
  let r9 := liftPy (randomLt (mkRat 87 100)) r8.2
  let r10 := liftPy (randomLt (mkRat 9 100)) r9.2
  let r11 := liftPy (randomLt (mkRat 99 100)) r10.2
  let r12 := liftPy (randomLt (mkRat 93 100)) r11.2
  let r13 := liftFk fakeFirstNameFemale r12.2
  let r14 := liftFk fakeLastName r13.2
  let r15 := liftPy (randomLt (mkRat 85 100)) r14.2
  let nat1 : String × GS :=
    if r15.1 then ("French", r15.2)
    else ((liftFk fakeCountry r15.2).1, (liftFk fakeCountry r15.2).2)
  ({ patient_id := patientId
     first_name := r13.1
     last_name := r14.1
     birth_date := patientBirthDate
     region := region
     postal_code := postalCode
     education_level := some r7.1
     is_employed := r8.1
     has_partner := r9.1
     receives_welfare := r10.1
     has_health_insurance := r11.1
     has_supplementary_insurance := r12.1
     nationality := nat1.1 }, nat1.2)

/-- The patients loop: for i in range(NUM_PATIENTS). -/
def genPatientsAux : Nat → Nat → GS → List Patient × GS
  | _, 0, s => ([], s)
  | i, n + 1, s =>
    let r := genPatient i s
    let rest := genPatientsAux (i + 1) n r.2
    (r.1 :: rest.1, rest.2)

/- ========================================================================
   Section 2 of the generator: the pregnancies table.
   ======================================================================== -/

/-- Maternal-age adjustment of the source (lines 254-265): an age below
15 is raised to 15 and the delivery date moved 365 days later per missing
year; an age above 50 is reset to 45 and the delivery date moved 365 days
earlier per year above 45.  Returns (delivery_date, maternal_age). -/
def adjustMaternalAge (deliveryDate0 age0 : Int) : Int × Int :=
  if age0 < 15 then
    (deliveryDate0 + 365 * (15 - age0), 15)
  else if age0 > 50 then
    (deliveryDate0 - 365 * (age0 - 45), 45)
  else (deliveryDate0, age0)

/-- One iteration of the pregnancies loop. -/
def genPregnancy (patientId : String) (patientBirthDate : Int)
    (pregnancyNum counter : Nat) (s : GS) : Pregnancy × GS :=
  let pregnancyId := "PREG_" ++ zfill 6 counter
  let r1 := liftPy generateBirthDate s
  let age0 := calculateAgeAtDate patientBirthDate r1.1
  let adj := adjustMaternalAge r1.1 age0
  let deliveryDate := adj.1
  let maternalAge := adj.2
  let r2 := liftPy (randint 22 43) r1.2
  let gestationalWeeks := r2.1
  let lmpDate := deliveryDate - 7 * (gestationalWeeks : Int)
  let eddDate := lmpDate + 7 * 40
  let r3 := liftPy (generateBmi (yearOf deliveryDate)) r2.2
  let bmi := r3.1
  let riskScore : Nat :=
    (if 35 ≤ maternalAge then 2 else 0) + (if 40 ≤ maternalAge then 3 else 0)
      + (if 30 ≤ bmi then 2 else 0) + (if pregnancyNum = 1 then 1 else 0)
  let r4 := liftPy (randomLt (mkRat 5 100 + (riskScore : ℚ) * mkRat 1 100)) r3.2
  let r5 := liftPy (randomLt (mkRat 2 100 + (riskScore : ℚ) * mkRat 8 1000)) r4.2
  let r6 := liftPy (randomLt (mkRat 15 1000)) r5.2
  let r7 := liftPy (randomLt (mkRat 25 1000)) r6.2
  let r8 := liftPy (generateSmokingStatus (yearOf deliveryDate)) r7.2
  let r9 := liftPy (randomLt (mkRat 3 100)) r8.2
  let r10 := liftPy (randomLt (mkRat 11 1000)) r9.2
  let covid : Bool × GS :=
    if 2020 ≤ yearOf deliveryDate then liftPy (randomLt (mkRat 57 1000)) r10.2
    else (false, r10.2)
  ({ pregnancy_id := pregnancyId
     patient_id := patientId
     pregnancy_number := pregnancyNum
     lmp_date := lmpDate
     edd := eddDate
     delivery_date := deliveryDate
     maternal_age_at_delivery := maternalAge
     pre_pregnancy_bmi := bmi
     gestational_weeks := gestationalWeeks
     initial_risk_score := riskScore
     has_gestational_diabetes := r4.1
     has_preeclampsia := r5.1
     has_placental_issues := r6.1
     is_multiple_gestation := r7.1
     smoking_3rd_trimester := r8.1
     alcohol_during_pregnancy := r9.1
     cannabis_use := r10.1
     covid_infection := covid.1 }, covid.2)

/-- The inner loop: for pregnancy_num in range(1, parity + 1), with the
running global pregnancy counter.  Returns (rows, counter, state). -/
def genPregsForPatient (patientId : String) (patientBirthDate : Int) :
    Nat → Nat → Nat → GS → List Pregnancy × Nat × GS
  | _, 0, c, s => ([], c, s)
  | pregnancyNum, r + 1, c, s =>
    let p := genPregnancy patientId patientBirthDate pregnancyNum c s
    let rest := genPregsForPatient patientId patientBirthDate
      (pregnancyNum + 1) r (c + 1) p.2
    (p.1 :: rest.1, rest.2.1, rest.2.2)

/-- The outer pregnancies loop over patients_df rows: draw the parity of
the patient, then generate that many pregnancies. -/
def genPregnanciesAll : List Patient → Nat → GS → List Pregnancy × Nat × GS
  | [], c, s => ([], c, s)
  | pat :: rest, c, s =>
    let rp := liftPy generateParity s
    let grp := genPregsForPatient pat.patient_id pat.birth_date 1 rp.1 c rp.2
    let tail := genPregnanciesAll rest grp.2.1 grp.2.2
    (grp.1 ++ tail.1, tail.2.1, tail.2.2)

/- ========================================================================
   Section 3 of the generator: the prenatal visits table.
   ======================================================================== -/

/-- Number of prenatal visits, by gestational length. -/
def numVisitsDraw (gestationalWeeks : Nat) (s : GS) : Nat × GS :=
  if gestationalWeeks < 28 then liftPy (randint 2 4) s
  else if gestationalWeeks < 37 then liftPy (randint 4 7) s
  else liftPy (randint 7 12) s

/-- One iteration of the visits loop for a given pregnancy row. -/
def genVisit (preg : Pregnancy) (visitNum numVisits counter : Nat) (s : GS) :
    Visit × GS :=
  let visitId := "VISIT_" ++ zfill 7 counter
  let pregnancyDurationDays := (preg.delivery_date - preg.lmp_date).toNat
  let visitDays := pregnancyDurationDays * visitNum / (numVisits + 1)
  let visitDate := preg.lmp_date + (visitDays : Int)
  let visitWeek := visitDays / 7
  let year := yearOf visitDate
  let midwifeRate : ℚ := min (mkRat 117 1000 + ((year - 2016 : Int) : ℚ) * mkRat 5 100) (mkRat 40 100)
  let r1 := liftPy (randomLt midwifeRate) s
  let providerType := if r1.1 then "Midwife" else "Obstetrician"
  let r2 := liftPy (randint 100 130) r1.2
  let r3 := liftPy (randint 60 85) r2.2
  let bpIncrease := visitWeek * 3 / 10
  let r4 := liftPy (randintI (-5) 5) r3.2
  let bpSys0 : Int := (r2.1 : Int) + (bpIncrease : Int) + r4.1
  let r5 := liftPy (randintI (-3) 3) r4.2
  let bpDia0 : Int := (r3.1 : Int) + ((bpIncrease * 6 / 10 : Nat) : Int) + r5.1
  let pe : (Int × Int) × GS :=
    if preg.has_preeclampsia ∧ 20 < visitWeek then
      let ra := liftPy (randint 140 160) r5.2
      let rb := liftPy (randint 90 105) ra.2
      ((max bpSys0 (ra.1 : Int), max bpDia0 (rb.1 : Int)), rb.2)
    else ((bpSys0, bpDia0), r5.2)
  let bpSystolic := pe.1.1
  let bpDiastolic := pe.1.2
  let prePregnancyWeight : ℚ :=
    (preg.pre_pregnancy_bmi / ((165/100 : ℚ) ^ 2)) * ((165/100 : ℚ) ^ 2)
  let r6 := liftPy (randUniform 9 18) pe.2
  let weightGainSoFar := ((visitWeek : ℚ) / 40) * r6.1
  let r7 := liftPy (randUniform (-2) 2) r6.2
  let currentWeight := prePregnancyWeight + weightGainSoFar + r7.1
  let fundal : Option Int × GS :=
    if 12 < visitWeek then
      let rf := liftPy (randint 0 3) r7.2
      (some (max 0 ((visitWeek : Int) - (rf.1 : Int))), rf.2)
    else (none, r7.2)
  let fetal : Option Nat × GS :=
    if 10 < visitWeek then
      let rf := liftPy (randint 120 160) fundal.2
      (some rf.1, rf.2)
    else (none, fundal.2)
  let downS : Bool × GS :=
    if 11 ≤ visitWeek ∧ visitWeek ≤ 14 then liftPy (randomLt (mkRat 918 1000)) fetal.2
    else (false, fetal.2)
  let glucoseTest : Bool := decide (24 ≤ visitWeek ∧ visitWeek ≤ 28)
  let visitRiskScore : Nat :=
    preg.initial_risk_score
      + (if 140 ≤ bpSystolic ∨ 90 ≤ bpDiastolic then 2 else 0)
      + (if preg.has_gestational_diabetes ∧ 24 < visitWeek then 2 else 0)
      + (if visitWeek < 37 ∧ visitNum = numVisits then 3 else 0)
  let protein : Bool × GS :=
    if 140 ≤ bpSystolic then liftPy (randomLt (mkRat 3 10)) downS.2
    else (false, downS.2)
  let r8 := liftPy (randint 50 500) protein.2
  ({ visit_id := visitId
     pregnancy_id := preg.pregnancy_id
     visit_number := visitNum
     visit_date := visitDate
     gestational_week := visitWeek
     provider_type := providerType
     bp_systolic := some bpSystolic
     bp_diastolic := bpDiastolic
     weight_kg := round1 currentWeight
     fundal_height_cm := fundal.1
     fetal_heart_rate := fetal.1
     protein_in_urine := protein.1
     glucose_screening_done := glucoseTest
     down_syndrome_screening_done := downS.1
     ultrasound_done := decide (visitNum = 1 ∨ visitNum = 3 ∨ visitNum = 5 ∨ visitNum = 7)
     risk_score_at_visit := visitRiskScore
     notes_length := r8.1 }, r8.2)

/-- The inner visits loop: visit numbers visitNum, visitNum+1, ... while
the remaining count decreases; the global visit counter runs along. -/
def genVisitsGo (preg : Pregnancy) (numVisits : Nat) :
    Nat → Nat → Nat → GS → List Visit × Nat × GS
  | _, 0, c, s => ([], c, s)
  | visitNum, r + 1, c, s =>
    let v := genVisit preg visitNum numVisits c s
    let rest := genVisitsGo preg numVisits (visitNum + 1) r (c + 1) v.2
    (v.1 :: rest.1, rest.2.1, rest.2.2)

/-- All visits of one pregnancy row: draw num_visits, then loop
for visit_num in range(1, num_visits + 1). -/
def genVisitsFor (preg : Pregnancy) (counter : Nat) (s : GS) :
    List Visit × Nat × GS :=
  let rn := numVisitsDraw preg.gestational_weeks s
  genVisitsGo preg rn.1 1 rn.1 counter rn.2

/-- The visits loop over pregnancies_df rows. -/
def genVisitsAll : List Pregnancy → Nat → GS → List Visit × Nat × GS
  | [], c, s => ([], c, s)
  | preg :: rest, c, s =>
    let grp := genVisitsFor preg c s
    let tail := genVisitsAll rest grp.2.1 grp.2.2
    (grp.1 ++ tail.1, tail.2.1, tail.2.2)

/- ========================================================================
   Section 4 of the generator: the deliveries table (one row per
   pregnancy row).
   ======================================================================== -/

/-- One iteration of the deliveries loop for a given pregnancy row. -/
def genDelivery (preg : Pregnancy) (s : GS) : Delivery × GS :=
  let deliveryDate := preg.delivery_date
  let deliveryId := "DEL_" ++ idNum preg.pregnancy_id
  let r1 := liftPy (chooseFrom FACILITY_TYPES) s
  let facilityType := r1.1
  let rc := liftFk fakeCity r1.2
  let facilityName := rc.1 ++ " " ++ facilityType ++ " Maternity"
  let year := yearOf deliveryDate
  let inductionRate : ℚ :=
    min (mkRat 202 1000 + ((year - 1995 : Int) : ℚ) * mkRat 21 10000) (mkRat 26 100)
  let r2 := liftPy (randomLt inductionRate) rc.2
  let laborInduced := r2.1
  let spontaneousLabor := !laborInduced
  let r3 := liftPy randUnit r2.2
  let deliveryModeChoice := r3.1
  let modeMethod : (String × String) × GS :=
    if deliveryModeChoice < mkRat 214 1000 then
      let rm := liftPy (chooseFrom ["Emergency cesarean", "Planned cesarean"]) r3.2
      (("Cesarean", rm.1), rm.2)
    else if deliveryModeChoice < mkRat 214 1000 + mkRat 124 1000 then
      let rm := liftPy (chooseFrom ["Forceps", "Vacuum extraction"]) r3.2
      (("Instrumental vaginal", rm.1), rm.2)
    else (("Spontaneous vaginal", "Spontaneous"), r3.2)
  let deliveryMode := modeMethod.1.1
  let arm : Bool × GS :=
    if spontaneousLabor then liftPy (randomLt (mkRat 332 1000)) modeMethod.2
    else (false, modeMethod.2)
  let oxy : Bool × GS :=
    if spontaneousLabor then liftPy (randomLt (mkRat 25 100)) arm.2
    else (false, arm.2)
  let r4 := liftPy (randomLt (mkRat 827 1000)) oxy.2
  let epidural := r4.1
  let pain : String × GS :=
    if epidural then liftPy (chooseFrom ["None", "Mild", "Moderate", "Severe"]) r4.2
    else liftPy (chooseFrom ["Moderate", "Severe"]) r4.2
  let parity := preg.pregnancy_number
  let epis : Bool × GS :=
    if deliveryMode = "Spontaneous vaginal" then
      if parity = 1 then liftPy (randomLt (mkRat 165 1000)) pain.2
      else liftPy (randomLt (mkRat 29 1000)) pain.2
    else (false, pain.2)
  let tear : Bool × GS :=
    if epis.1 = false ∧ deliveryMode = "Spontaneous vaginal" then
      liftPy (randomLt (mkRat 30 100)) epis.2
    else (false, epis.2)
  let degree : Option Nat × GS :=
    if tear.1 then
      let rd := liftPy (chooseFrom [1, 2, 3, 4]) tear.2
      (some rd.1, rd.2)
    else (none, tear.2)
  let blood0 : Nat × GS :=
    if deliveryMode ≠ "Cesarean" then liftPy (randint 200 500) degree.2
    else liftPy (randint 400 800) degree.2
  let rh := liftPy (randomLt (mkRat 5 100)) blood0.2
  let blood : Nat × GS :=
    if rh.1 then liftPy (randint 1000 2000) rh.2 else (blood0.1, rh.2)
  let dur : Nat × GS :=
    if deliveryMode = "Cesarean" then
      (if laborInduced then liftPy (randint 30 180) blood.2 else (0, blood.2))
    else if parity = 1 then liftPy (randint 240 960) blood.2
    else liftPy (randint 120 480) blood.2
  let comps0 : List String :=
    if 1000 < blood.1 then ["Postpartum hemorrhage"] else []
  let ri := liftPy (randomLt (mkRat 2 100)) dur.2
  let comps1 := if ri.1 then comps0 ++ ["Infection"] else comps0
  let surg : Bool × GS :=
    if deliveryMode = "Cesarean" then liftPy (randomLt (mkRat 3 100)) ri.2
    else (false, ri.2)
  let comps2 := if surg.1 then comps1 ++ ["Surgical complications"] else comps1
  let complicationsText : Option String :=
    if comps2 = [] then none else some (String.intercalate ", " comps2)
  let rt1 := liftPy (randint 0 23) surg.2
  let rt2 := liftPy (randint 0 59) rt1.2
  let deliveryTime := zfill 2 rt1.1 ++ ":" ++ zfill 2 rt2.1
  let ro := liftFk fakeFullName rt2.2
  let rmw := liftPy (randomLt (mkRat 6 10)) ro.2
  let midwife : Option String × GS :=
    if rmw.1 then
      let rf := liftFk fakeFullName rmw.2
      (some rf.1, rf.2)
    else (none, rmw.2)
  ({ delivery_id := deliveryId
     pregnancy_id := preg.pregnancy_id
     delivery_date := deliveryDate
     delivery_time := deliveryTime
     facility_type := facilityType
     facility_name := facilityName
     labor_induced := laborInduced
     spontaneous_labor := spontaneousLabor
     artificial_rupture_membranes := arm.1
     oxytocin_augmentation := oxy.1
     epidural := epidural
     pain_level := pain.1
     delivery_mode := deliveryMode
     delivery_method := modeMethod.1.2
     episiotomy := epis.1
     perineal_tear := tear.1
     perineal_tear_degree := degree.1
     labor_duration_minutes := dur.1
     blood_loss_ml := blood.1
     maternal_complications := complicationsText
     attending_obstetrician := ro.1
     attending_midwife := midwife.1 }, midwife.2)

/-- The deliveries loop over pregnancies_df rows. -/
def genDeliveriesAll : List Pregnancy → GS → List Delivery × GS
  | [], s => ([], s)
  | preg :: rest, s =>
    let d := genDelivery preg s
    let tail := genDeliveriesAll rest d.2
    (d.1 :: tail.1, tail.2)

/- ========================================================================
   Section 5 of the generator: the birth outcomes table (1 row per
   pregnancy, 2 when is_multiple_gestation).
   ======================================================================== -/

/-- One iteration of the outcomes loop for a given pregnancy row. -/
def genOutcome (preg : Pregnancy) (infantNum counter : Nat) (s : GS) :
    BirthOutcome × GS :=
  let outcomeId := "OUT_" ++ zfill 6 counter
  let deliveryId := "DEL_" ++ idNum preg.pregnancy_id
  let gestationalWeeks := preg.gestational_weeks
  let isMultiple := preg.is_multiple_gestation
  let bw0 : Int × GS :=
    if 37 ≤ gestationalWeeks then liftNp (normalInt 3264 450) s
    else if 32 ≤ gestationalWeeks then liftNp (normalInt 2200 400) s
    else liftNp (normalInt 1500 350) s
  let bw1 : Int := if isMultiple then Int.tdiv (bw0.1 * 85) 100 else bw0.1
  let birthWeight : Int := max 500 (min bw1 5500)
  let lowBirthWeight : Bool := decide (birthWeight < 2500)
  let birthLength : ℚ :=
    max 35 (min (round1 (45 + ((birthWeight : ℚ) - 2500) / 100)) 58)
  let headCircumference : ℚ :=
    max 28 (min (round1 (32 + ((birthWeight : ℚ) - 2500) / 150)) 38)
  let apgar : (Nat × Nat) × GS :=
    if 37 ≤ gestationalWeeks ∧ 2500 ≤ birthWeight then
      let a1 := liftPy (chooseFrom [7, 8, 9, 10]) bw0.2
      let a5 := liftPy (chooseFrom [8, 9, 10]) a1.2
      ((a1.1, a5.1), a5.2)
    else
      let a1 := liftPy (chooseFrom [4, 5, 6, 7, 8, 9]) bw0.2
      let a5 := liftPy (chooseFrom [6, 7, 8, 9, 10]) a1.2
      ((a1.1, a5.1), a5.2)
  let apgar5 := apgar.1.2
  let rs := liftPy (chooseFrom ["Male", "Female"]) apgar.2
  let c1 : List String × GS :=
    if gestationalWeeks < 37 then
      let r := liftPy (randomLt (mkRat 30 100)) rs.2
      (if r.1 then ["Respiratory distress"] else [], r.2)
    else ([], rs.2)
  let c2 : List String × GS :=
    if lowBirthWeight then
      let r := liftPy (randomLt (mkRat 20 100)) c1.2
      (if r.1 then c1.1 ++ ["Hypoglycemia"] else c1.1, r.2)
    else (c1.1, c1.2)
  let c3 : List String × GS :=
    if apgar5 < 7 then
      let r := liftPy (randomLt (mkRat 40 100)) c2.2
      (if r.1 then c2.1 ++ ["Birth asphyxia"] else c2.1, r.2)
    else (c2.1, c2.2)
  let r4 := liftPy (randomLt (mkRat 3 100)) c3.2
  let comps := if r4.1 then c3.1 ++ ["Jaundice requiring phototherapy"] else c3.1
  let complicationsText : Option String :=
    if comps = [] then none else some (String.intercalate ", " comps)
  let nicu : Bool × GS :=
    if gestationalWeeks < 34 ∨ birthWeight < 1800 ∨ apgar5 < 6 then (true, r4.2)
    else if comps ≠ [] then liftPy (randomLt (mkRat 50 100)) r4.2
    else (false, r4.2)
  let nicuDays : Nat × GS :=
    if nicu.1 then liftPy (randint 3 30) nicu.2 else (0, nicu.2)
  let rb := liftPy (chooseFrom ["Exclusive", "Mixed", "Formula only"]) nicuDays.2
  ({ outcome_id := outcomeId
     delivery_id := deliveryId
     pregnancy_id := preg.pregnancy_id
     infant_number := infantNum
     sex := rs.1
     birth_weight_grams := birthWeight
     birth_length_cm := birthLength
     head_circumference_cm := headCircumference
     apgar_1min := apgar.1.1
     apgar_5min := apgar5
     gestational_age_weeks := gestationalWeeks
     low_birth_weight := lowBirthWeight
     preterm_birth := decide (gestationalWeeks < 37)
     neonatal_complications := complicationsText
     nicu_admission := nicu.1
     nicu_days := nicuDays.1
     breastfeeding_initiation := rb.1 }, rb.2)

/-- The inner infants loop: for infant_num in range(1, num_infants + 1). -/
def genOutcomesGo (preg : Pregnancy) :
    Nat → Nat → Nat → GS → List BirthOutcome × Nat × GS
  | _, 0, c, s => ([], c, s)
  | infantNum, r + 1, c, s =>
    let o := genOutcome preg infantNum c s
    let rest := genOutcomesGo preg (infantNum + 1) r (c + 1) o.2
    (o.1 :: rest.1, rest.2.1, rest.2.2)

/-- All outcome rows of one pregnancy: num_infants = 2 if multiple else 1. -/
def genOutcomesFor (preg : Pregnancy) (counter : Nat) (s : GS) :
    List BirthOutcome × Nat × GS :=
  let numInfants := if preg.is_multiple_gestation then 2 else 1
  genOutcomesGo preg 1 numInfants counter s

/-- The outcomes loop over pregnancies_df rows. -/
def genOutcomesAll : List Pregnancy → Nat → GS → List BirthOutcome × Nat × GS
  | [], c, s => ([], c, s)
  | preg :: rest, c, s =>
    let grp := genOutcomesFor preg c s
    let tail := genOutcomesAll rest grp.2.1 grp.2.2
    (grp.1 ++ tail.1, tail.2.1, tail.2.2)

/-- Sections 1-5 of the generator: the five clean tables plus the stream
state left for section 6 (the quality-defect injection). -/
def genPipeline (n : Nat) (s : GS) : Tables × GS :=
  let pats := genPatientsAux 0 n s
  let pregs := genPregnanciesAll pats.1 1 pats.2
  let vis := genVisitsAll pregs.1 1 pregs.2.2
  let dels := genDeliveriesAll pregs.1 vis.2.2
  let outs := genOutcomesAll pregs.1 1 dels.2
  (⟨pats.1, pregs.1, vis.1, dels.1, outs.1⟩, outs.2.2)

/-- The five tables as generated, before the quality-defect injection. -/
def generateTables (n : Nat) (s : GS) : Tables := (genPipeline n s).1

/- ========================================================================
   Section 6 of the generator: intentional data quality issues.
   random.sample(range(n), k) and DataFrame.sample(n=k) both select k
   DISTINCT positions (sampling without replacement); the model removes
   the chosen position from the pool at each step.  random.sample raises
   ValueError when k exceeds the pool, which cannot happen for the
   configured counts; the model simply stops on an exhausted pool and
   every count theorem below carries the pool-size hypothesis.
   DataFrame.sample draws from numpy's stream, random.sample from
   Python's.
   ======================================================================== -/

/-- Sample k distinct members of the pool, without replacement. -/
def sampleIdx : Nat → List Nat → Rng → List Nat × Rng
  | 0, _, g => ([], g)
  | _ + 1, [], g => ([], g)
  | k + 1, x :: xs, g =>
    let r := Rng.next g
    let i := r.1 % (x :: xs).length
    let chosen := (x :: xs).getD i 0
    let rest := sampleIdx k ((x :: xs).eraseIdx i) r.2
    (chosen :: rest.1, rest.2)

/-- random.sample(range(n), k). -/
def pySample (n k : Nat) (s : GS) : List Nat × GS :=
  liftPy (sampleIdx k (List.range n)) s

/-- DataFrame.sample(n=k) index set (pandas uses the numpy stream). -/
def npSample (n k : Nat) (s : GS) : List Nat × GS :=
  liftNp (sampleIdx k (List.range n)) s

/-- Replace the element at one position, leaving the list unchanged when
the position is out of range (DataFrame .loc row update). -/
def modifyIdx (f : α → α) : List α → Nat → List α
  | [], _ => []
  | a :: l, 0 => f a :: l
  | a :: l, n + 1 => a :: modifyIdx f l n

/-- Apply the row update f at every position of idxs. -/
def applyAll (f : α → α) (l : List α) (idxs : List Nat) : List α :=
  idxs.foldl (modifyIdx f) l

/-- patients_df.loc[indices, education_level] = None. -/
def clearEducation (p : Patient) : Patient := { p with education_level := none }

/-- prenatal_visits_df.loc[indices, bp_systolic] = None. -/
def clearBp (v : Visit) : Visit := { v with bp_systolic := none }

/-- The +400 day shift: parse visit_date, add timedelta(days=400). -/
def shiftVisitDate (v : Visit) : Visit := { v with visit_date := v.visit_date + 400 }

/-- Section 6 of the source, line for line: 50 patients lose
education_level, 100 visits lose bp_systolic, 20 sampled visit rows are
appended as duplicates, 10 rows of the concatenated table get a +400-day
visit_date.  Returns the final patients and visits tables. -/
def injectDefects (pats : List Patient) (vis : List Visit) (s : GS) :
    List Patient × List Visit × GS :=
  let rp := pySample pats.length 50 s
  let pats1 := applyAll clearEducation pats rp.1
  let rv := pySample vis.length 100 rp.2
  let vis1 := applyAll clearBp vis rv.1
  let rd := npSample vis1.length 20 rv.2
  let duplicateVisits := rd.1.map (fun i => vis1.getD i default)
  let vis2 := vis1 ++ duplicateVisits
  let rb := npSample vis2.length 10 rd.2
  let vis3 := applyAll shiftVisitDate vis2 rb.1
  (pats1, vis3, rb.2)

/-- The full generator: sections 1-6; the tables as written to CSV. -/
def generateAll (n : Nat) (s : GS) : Tables :=
  let p := genPipeline n s
  let inj := injectDefects p.1.patients p.1.visits p.2
  { p.1 with patients := inj.1, visits := inj.2.1 }

/- ========================================================================
   The process model for reproducibility (claim C1).  random.seed(42) and
   np.random.seed(42) make the py and npy streams functions of the seed
   alone; the two stream functions below are abstract executable
   stand-ins for the two Mersenne Twister variants (only their
   determinism in the seed matters to any theorem).  Faker's module-level
   Random() instance is created at import time from operating-system
   entropy and the script never calls Faker.seed, so the fk stream is a
   function of the process entropy, not of the seed.
   ======================================================================== -/

/-- Stand-in for the stream of CPython's Mersenne Twister after
random.seed(seed). -/
def mtStream (seed : Nat) : Nat → Nat :=
  fun k => (seed + k + 1) * 2654435761 % 4294967296

/-- Stand-in for the stream of numpy's legacy RandomState after
np.random.seed(seed). -/
def npMtStream (seed : Nat) : Nat → Nat :=
  fun k => (seed + k + 1) * 2246822519 % 4294967296

/-- Stand-in for the stream of Faker's unseeded module-level Random()
instance, a function of the operating-system entropy at process start. -/
def fakerStream (osEntropy : Nat) : Nat → Nat :=
  fun k => osEntropy + k

/-- The three stream states at the start of one process run. -/
def runState (seed osEntropy : Nat) : GS :=
  ⟨⟨mtStream seed, 0⟩, ⟨npMtStream seed, 0⟩, ⟨fakerStream osEntropy, 0⟩⟩

/-- One run of the generator process: seeds fix the py and npy streams,
the operating-system entropy fixes the Faker stream. -/
def runScript (seed osEntropy : Nat) : Tables :=
  generateAll NUM_PATIENTS (runState seed osEntropy)

/- ========================================================================
   The loader (scripts/load_data_to_postgres.py).  Database effects are
   modelled by their observable state: the raw-schema tables and their
   row counts.  The environment carries the two fallible effects of the
   script: whether psycopg2.connect succeeds, and for each CSV file
   either its row count (a successful read_csv + to_sql round trip) or
   the message of the exception raised while loading it.
   ======================================================================== -/

/-- One entry of the tables_config dictionary of load_csv_data. -/
structure TableCfg where
  table : String
  file : String
  dateCols : List String
deriving DecidableEq, Inhabited, Repr

/-- tables_config: the five tables, in loop order, with their CSV files
and the columns parsed as dates. -/
def tablesConfig : List TableCfg :=
  [⟨"patients", "patients.csv", ["birth_date"]⟩,
   ⟨"pregnancies", "pregnancies.csv", ["lmp_date", "edd", "delivery_date"]⟩,
   ⟨"prenatal_visits", "prenatal_visits.csv", ["visit_date"]⟩,
   ⟨"deliveries", "deliveries.csv", ["delivery_date"]⟩,
   ⟨"birth_outcomes", "birth_outcomes.csv", []⟩]

/-- Observable database state: the row count of each existing raw table. -/
def DbState : Type := String → Option Nat

/-- The empty database (before create_tables). -/
def dbEmpty : DbState := fun _ => none

/-- df.to_sql(name, engine, schema=raw, if_exists=replace): the target
table is dropped and recreated with exactly the rows of the frame. -/
def dbReplace (db : DbState) (t : String) (n : Nat) : DbState :=
  fun x => if x = t then some n else db x

/-- create_tables: DROP TABLE IF EXISTS then CREATE TABLE for each of
the five raw tables, leaving each empty. -/
def createTables (db : DbState) : DbState :=
  tablesConfig.foldl (fun d c => dbReplace d c.table 0) db

/-- Environment of one loader run: the connection outcome and, per CSV
file, the loaded row count or the exception message. -/
structure LoaderEnv where
  connects : Bool
  csvLoad : String → Except String Nat

/-- The body of the per-table loop of load_csv_data: on success the
table contents are replaced by the frame; on an exception the error is
printed with the underlying message and the loop continues. -/
def loadOneTable (env : LoaderEnv) (acc : DbState × List String)
    (cfg : TableCfg) : DbState × List String :=
  let logs := acc.2 ++ ["  Loading " ++ cfg.table ++ "..."]
  match env.csvLoad cfg.file with
  | Except.ok n =>
    (dbReplace acc.1 cfg.table n, logs ++ ["    Loaded " ++ toString n ++ " rows"])
  | Except.error e =>
    (acc.1, logs ++ ["    Failed to load " ++ cfg.table ++ ": " ++ e])

/-- load_csv_data: the loop over tables_config. -/
def loadCsvData (env : LoaderEnv) (db : DbState) : DbState × List String :=
  tablesConfig.foldl (loadOneTable env) (db, [])

/-- verify_data: print the row count of each raw table. -/
def verifyData (db : DbState) : List String :=
  tablesConfig.map (fun c =>
    "  " ++ c.table ++ " -> " ++ toString ((db c.table).getD 0) ++ " rows")

/-- main() of the loader: exit code and printed log.  create_connection
calls sys.exit(1) when psycopg2.connect raises; otherwise schemas and
tables are created, every CSV is loaded (failures per table are caught
inside load_csv_data) and the verification summary prints before a
normal exit 0. -/
def loaderMain (env : LoaderEnv) : Nat × List String :=
  if env.connects = false then (1, ["Connection failed"])
  else
    let db0 := createTables dbEmpty
    let r := loadCsvData env db0
    (0, ["Connected to PostgreSQL"] ++ r.2 ++ verifyData r.1)

/-- The database state a successful loader run leaves behind. -/
def loaderFinalDb (env : LoaderEnv) : DbState :=
  (loadCsvData env (createTables dbEmpty)).1

/- ========================================================================
   Basic lemmas about the random primitives.
   ======================================================================== -/

theorem le_randint (a b : Nat) (g : Rng) : a ≤ (randint a b g).1 := by
  simp only [randint]
  exact Nat.le_add_right a _

theorem randint_le (a b : Nat) (g : Rng) (h : a ≤ b) : (randint a b g).1 ≤ b := by
  simp only [randint]
  have hpos : 0 < b + 1 - a := by omega
  have hlt := Nat.mod_lt (Rng.next g).1 hpos
  omega

theorem getD_mem_of_lt (l : List α) (i : Nat) (d : α) (h : i < l.length) :
    l.getD i d ∈ l := by
  induction l generalizing i with
  | nil => simp at h
  | cons a t ih =>
    cases i with
    | zero => simp
    | succ n =>
      simp only [List.getD_cons_succ, List.mem_cons]
      exact Or.inr (ih n (by simpa using h))

theorem chooseFrom_mem [Inhabited α] (xs : List α) (g : Rng) (h : xs ≠ []) :
    (chooseFrom xs g).1 ∈ xs := by
  simp only [chooseFrom]
  have hlen : 0 < xs.length := List.length_pos.mpr h
  exact getD_mem_of_lt xs _ default (Nat.mod_lt _ hlen)

theorem liftPy_fst (f : Rng → α × Rng) (s : GS) : (liftPy f s).1 = (f s.py).1 := rfl

/- ========================================================================
   Lemmas about the row-update and sampling machinery of section 6.
   ======================================================================== -/

theorem modifyIdx_length (f : α → α) (l : List α) (i : Nat) :
    (modifyIdx f l i).length = l.length := by
  induction l generalizing i with
  | nil => rfl
  | cons a t ih =>
    cases i with
    | zero => rfl
    | succ n => simpa [modifyIdx] using ih n

theorem modifyIdx_getD_same (f : α → α) (l : List α) (i : Nat) (d : α)
    (h : i < l.length) :
    (modifyIdx f l i).getD i d = f (l.getD i d) := by
  induction l generalizing i with
  | nil => simp at h
  | cons a t ih =>
    cases i with
    | zero => rfl
    | succ n =>
      simp only [modifyIdx, List.getD_cons_succ]
      exact ih n (by simpa using h)

theorem modifyIdx_getD_ne (f : α → α) (l : List α) (i j : Nat) (d : α)
    (hne : j ≠ i) :
    (modifyIdx f l i).getD j d = l.getD j d := by
  induction l generalizing i j with
  | nil => rfl
  | cons a t ih =>
    cases i with
    | zero =>
      cases j with
      | zero => exact absurd rfl hne
      | succ m => rfl
    | succ n =>
      cases j with
      | zero => rfl
      | succ m =>
        simp only [modifyIdx, List.getD_cons_succ]
        exact ih n m (by omega)

theorem applyAll_nil (f : α → α) (l : List α) : applyAll f l [] = l := rfl

theorem applyAll_cons (f : α → α) (l : List α) (i : Nat) (t : List Nat) :
    applyAll f l (i :: t) = applyAll f (modifyIdx f l i) t := rfl

theorem applyAll_length (f : α → α) (l : List α) (idxs : List Nat) :
    (applyAll f l idxs).length = l.length := by
  induction idxs generalizing l with
  | nil => rfl
  | cons i t ih => rw [applyAll_cons, ih, modifyIdx_length]

theorem countP_modifyIdx (p : α → Bool) (f : α → α) (l : List α) (i : Nat) (d : α)
    (h : i < l.length) (h0 : p (l.getD i d) = false) (h1 : p (f (l.getD i d)) = true) :
    (modifyIdx f l i).countP p = l.countP p + 1 := by
  induction l generalizing i with
  | nil => simp at h
  | cons a t ih =>
    cases i with
    | zero =>
      simp only [List.getD_cons_zero] at h0 h1
      simp [modifyIdx, List.countP_cons, h0, h1]
    | succ n =>
      simp only [List.getD_cons_succ] at h0 h1
      have := ih n (by simpa using h) h0 h1
      simp only [modifyIdx, List.countP_cons, this]
      omega

/-- Applying a row update at pairwise distinct, in-range positions where
the predicate did not hold, when the update forces the predicate,
increases the count by exactly the number of positions. -/
theorem countP_applyAll (p : α → Bool) (f : α → α) (l : List α) (idxs : List Nat)
    (d : α) (hnodup : idxs.Nodup)
    (hlt : ∀ i ∈ idxs, i < l.length)
    (hpre : ∀ i ∈ idxs, p (l.getD i d) = false)
    (hf : ∀ x, p (f x) = true) :
    (applyAll f l idxs).countP p = l.countP p + idxs.length := by
  induction idxs generalizing l with
  | nil => simp [applyAll_nil]
  | cons i t ih =>
    rw [applyAll_cons]
    have hi : i < l.length := hlt i (List.mem_cons_self i t)
    have hstep := countP_modifyIdx p f l i d hi
      (hpre i (List.mem_cons_self i t)) (hf (l.getD i d))
    have hnd := List.nodup_cons.mp hnodup
    have := ih (modifyIdx f l i) hnd.2
      (fun j hj => by rw [modifyIdx_length]; exact hlt j (List.mem_cons_of_mem i hj))
      (fun j hj => by
        rw [modifyIdx_getD_ne f l i j d (fun hji => hnd.1 (hji ▸ hj))]
        exact hpre j (List.mem_cons_of_mem i hj))
    rw [this, hstep]
    simp only [List.length_cons]
    omega

/-- A projection unchanged by the row update is unchanged by applyAll. -/
theorem map_applyAll (g : α → β) (f : α → α) (hg : ∀ x, g (f x) = g x)
    (l : List α) (idxs : List Nat) :
    (applyAll f l idxs).map g = l.map g := by
  have hmod : ∀ (l : List α) (i : Nat), (modifyIdx f l i).map g = l.map g := by
    intro l i
    induction l generalizing i with
    | nil => rfl
    | cons a t ih =>
      cases i with
      | zero => simp [modifyIdx, hg]
      | succ n => simp [modifyIdx, ih n]
  induction idxs generalizing l with
  | nil => rfl
  | cons i t ih => rw [applyAll_cons, ih, hmod]

theorem length_eraseIdx_of_lt (l : List α) (i : Nat) (h : i < l.length) :
    (l.eraseIdx i).length = l.length - 1 := by
  induction l generalizing i with
  | nil => simp at h
  | cons a t ih =>
    cases i with
    | zero => simp [List.eraseIdx]
    | succ n =>
      simp only [List.eraseIdx_cons_succ, List.length_cons]
      have hn : n < t.length := by simpa using h
      rw [ih n hn]
      omega

theorem sampleIdx_subset (k : Nat) (pool : List Nat) (g : Rng) :
    ∀ x ∈ (sampleIdx k pool g).1, x ∈ pool := by
  induction k generalizing pool g with
  | zero => intro x hx; simp [sampleIdx] at hx
  | succ n ih =>
    intro x hx
    cases pool with
    | nil => simp [sampleIdx] at hx
    | cons a t =>
      simp only [sampleIdx, List.mem_cons] at hx
      rcases hx with h | h
      · subst h
        exact getD_mem_of_lt _ _ _ (Nat.mod_lt _ (by simp))
      · exact (List.eraseIdx_sublist (a :: t) _).subset (ih _ _ x h)

theorem sampleIdx_cons_fst (k a : Nat) (t : List Nat) (g : Rng) :
    (sampleIdx (k + 1) (a :: t) g).1
      = (a :: t).getD ((Rng.next g).1 % (a :: t).length) 0
        :: (sampleIdx k ((a :: t).eraseIdx ((Rng.next g).1 % (a :: t).length))
            (Rng.next g).2).1 := rfl

theorem sampleIdx_length (k : Nat) (pool : List Nat) (g : Rng)
    (h : k ≤ pool.length) :
    (sampleIdx k pool g).1.length = k := by
  induction k generalizing pool g with
  | zero => rfl
  | succ n ih =>
    cases pool with
    | nil => simp at h
    | cons a t =>
      have hlt : (Rng.next g).1 % (a :: t).length < (a :: t).length :=
        Nat.mod_lt _ (by simp)
      have hle : n ≤ ((a :: t).eraseIdx ((Rng.next g).1 % (a :: t).length)).length := by
        rw [length_eraseIdx_of_lt _ _ hlt]
        simp only [List.length_cons] at h ⊢
        omega
      rw [sampleIdx_cons_fst, List.length_cons, ih _ _ hle]

theorem getD_not_mem_eraseIdx (l : List Nat) (i : Nat) (h : i < l.length)
    (hn : l.Nodup) :
    l.getD i 0 ∉ l.eraseIdx i := by
  induction l generalizing i with
  | nil => simp at h
  | cons a t ih =>
    have hnd := List.nodup_cons.mp hn
    cases i with
    | zero => simpa using hnd.1
    | succ n =>
      simp only [List.getD_cons_succ, List.eraseIdx_cons_succ, List.mem_cons, not_or]
      have hn2 : n < t.length := by simpa using h
      refine ⟨fun heq => hnd.1 ?_, ih n hn2 hnd.2⟩
      rw [← heq]
      exact getD_mem_of_lt t n 0 hn2

theorem sampleIdx_nodup (k : Nat) (pool : List Nat) (g : Rng)
    (hn : pool.Nodup) :
    (sampleIdx k pool g).1.Nodup := by
  induction k generalizing pool g with
  | zero => simp [sampleIdx]
  | succ n ih =>
    cases pool with
    | nil => simp [sampleIdx]
    | cons a t =>
      simp only [sampleIdx]
      rw [List.nodup_cons]
      have hne : ((a :: t).eraseIdx ((Rng.next g).1 % (a :: t).length)).Nodup :=
        hn.sublist (List.eraseIdx_sublist _ _)
      refine ⟨fun hmem => ?_, ih _ _ hne⟩
      exact getD_not_mem_eraseIdx (a :: t) _ (Nat.mod_lt _ (by simp)) hn
        (sampleIdx_subset n _ _ _ hmem)

theorem pySample_fst (n k : Nat) (s : GS) :
    (pySample n k s).1 = (sampleIdx k (List.range n) s.py).1 := rfl

theorem pySample_mem_lt (n k : Nat) (s : GS) :
    ∀ i ∈ (pySample n k s).1, i < n := by
  intro i hi
  rw [pySample_fst] at hi
  exact List.mem_range.mp (sampleIdx_subset k (List.range n) s.py i hi)

theorem pySample_nodup (n k : Nat) (s : GS) : (pySample n k s).1.Nodup := by
  rw [pySample_fst]
  exact sampleIdx_nodup k (List.range n) s.py (List.nodup_range n)

theorem pySample_length (n k : Nat) (s : GS) (h : k ≤ n) :
    (pySample n k s).1.length = k := by
  rw [pySample_fst]
  exact sampleIdx_length k (List.range n) s.py (by simpa using h)

theorem npSample_fst (n k : Nat) (s : GS) :
    (npSample n k s).1 = (sampleIdx k (List.range n) s.npy).1 := rfl

theorem npSample_mem_lt (n k : Nat) (s : GS) :
    ∀ i ∈ (npSample n k s).1, i < n := by
  intro i hi
  rw [npSample_fst] at hi
  exact List.mem_range.mp (sampleIdx_subset k (List.range n) s.npy i hi)

theorem npSample_nodup (n k : Nat) (s : GS) : (npSample n k s).1.Nodup := by
  rw [npSample_fst]
  exact sampleIdx_nodup k (List.range n) s.npy (List.nodup_range n)

theorem npSample_length (n k : Nat) (s : GS) (h : k ≤ n) :
    (npSample n k s).1.length = k := by
  rw [npSample_fst]
  exact sampleIdx_length k (List.range n) s.npy (by simpa using h)

/- ========================================================================
   Structural lemmas about the generated pregnancies.
   ======================================================================== -/

/-- Shape invariants every generated pregnancy row satisfies. -/
def PregWF (p : Pregnancy) : Prop :=
  p.delivery_date - p.lmp_date = 7 * (p.gestational_weeks : Int)
    ∧ 22 ≤ p.gestational_weeks ∧ p.gestational_weeks ≤ 43
    ∧ 15 ≤ p.maternal_age_at_delivery ∧ p.maternal_age_at_delivery ≤ 50

theorem adjustMaternalAge_mem (dd age0 : Int) :
    15 ≤ (adjustMaternalAge dd age0).2 ∧ (adjustMaternalAge dd age0).2 ≤ 50 := by
  unfold adjustMaternalAge
  split_ifs with h1 h2
  · exact ⟨(by omega : (15 : Int) ≤ 15), (by omega : (15 : Int) ≤ 50)⟩
  · exact ⟨(by omega : (15 : Int) ≤ 45), (by omega : (45 : Int) ≤ 50)⟩
  · exact ⟨(by omega : 15 ≤ age0), (by omega : age0 ≤ 50)⟩

theorem genPregnancy_patient_id (pid : String) (bd : Int) (pn c : Nat) (s : GS) :
    ((genPregnancy pid bd pn c s).1).patient_id = pid := by
  simp only [genPregnancy]

theorem genPregnancy_wf (pid : String) (bd : Int) (pn c : Nat) (s : GS) :
    PregWF (genPregnancy pid bd pn c s).1 := by
  unfold PregWF
  simp only [genPregnancy]
  refine ⟨by ring, ?_, ?_, ?_, ?_⟩
  · exact le_randint 22 43 _
  · exact randint_le 22 43 _ (by omega)
  · exact (adjustMaternalAge_mem _ _).1
  · exact (adjustMaternalAge_mem _ _).2

theorem genPregsForPatient_mem (pid : String) (bd : Int) (r : Nat) :
    ∀ (pn c : Nat) (s : GS) (p : Pregnancy),
      p ∈ (genPregsForPatient pid bd pn r c s).1 →
      p.patient_id = pid ∧ PregWF p := by
  induction r with
  | zero => intro pn c s p hp; simp [genPregsForPatient] at hp
  | succ n ih =>
    intro pn c s p hp
    simp only [genPregsForPatient, List.mem_cons] at hp
    rcases hp with h | h
    · subst h
      exact ⟨genPregnancy_patient_id pid bd pn c s, genPregnancy_wf pid bd pn c s⟩
    · exact ih _ _ _ p h

theorem genPregnanciesAll_mem (pats : List Patient) :
    ∀ (c : Nat) (s : GS) (p : Pregnancy),
      p ∈ (genPregnanciesAll pats c s).1 →
      (∃ a ∈ pats, p.patient_id = a.patient_id) ∧ PregWF p := by
  induction pats with
  | nil => intro c s p hp; simp [genPregnanciesAll] at hp
  | cons pat rest ih =>
    intro c s p hp
    simp only [genPregnanciesAll, List.mem_append] at hp
    rcases hp with h | h
    · have hm := genPregsForPatient_mem pat.patient_id pat.birth_date _ _ _ _ p h
      exact ⟨⟨pat, List.mem_cons_self pat rest, hm.1⟩, hm.2⟩
    · obtain ⟨⟨a, ha, he⟩, hwf⟩ := ih _ _ p h
      exact ⟨⟨a, List.mem_cons_of_mem pat ha, he⟩, hwf⟩

/- ========================================================================
   Structural lemmas about the generated visits.
   ======================================================================== -/

theorem genVisit_pregnancy_id (preg : Pregnancy) (vnum nv c : Nat) (s : GS) :
    ((genVisit preg vnum nv c s).1).pregnancy_id = preg.pregnancy_id := by
  simp only [genVisit]

theorem genVisit_risk_ge (preg : Pregnancy) (vnum nv c : Nat) (s : GS) :
    preg.initial_risk_score ≤ ((genVisit preg vnum nv c s).1).risk_score_at_visit := by
  simp only [genVisit]
  split_ifs <;> omega

theorem genVisit_date_bounds (preg : Pregnancy) (vnum nv c : Nat) (s : GS)
    (hwf : PregWF preg) (h1 : 1 ≤ vnum) (h2 : vnum ≤ nv) (h3 : nv ≤ 12) :
    preg.lmp_date < ((genVisit preg vnum nv c s).1).visit_date
    ∧ ((genVisit preg vnum nv c s).1).visit_date < preg.delivery_date := by
  obtain ⟨hdur, hw22, hw43, _, _⟩ := hwf
  simp only [genVisit]
  have hDval : (preg.delivery_date - preg.lmp_date).toNat = 7 * preg.gestational_weeks := by
    omega
  set D := (preg.delivery_date - preg.lmp_date).toNat with hD
  have hD154 : 154 ≤ D := by omega
  have hlow : 1 ≤ D * vnum / (nv + 1) := by
    rw [Nat.le_div_iff_mul_le (by omega)]
    have h13 : 1 * (nv + 1) ≤ 154 := by omega
    have h2' : D ≤ D * vnum := Nat.le_mul_of_pos_right _ (by omega)
    omega
  have hhigh : D * vnum / (nv + 1) < D := by
    rw [Nat.div_lt_iff_lt_mul (by omega)]
    have : D * vnum < D * (nv + 1) :=
      Nat.mul_lt_mul_of_le_of_lt (Nat.le_refl D) (by omega) (by omega)
    omega
  constructor
  · omega
  · omega

theorem numVisitsDraw_bounds (w : Nat) (s : GS) :
    1 ≤ (numVisitsDraw w s).1 ∧ (numVisitsDraw w s).1 ≤ 12 := by
  unfold numVisitsDraw
  split_ifs <;>
    exact ⟨Nat.le_trans (by omega) (le_randint _ _ _),
           Nat.le_trans (randint_le _ _ _ (by omega)) (by omega)⟩

theorem genVisitsGo_mem (preg : Pregnancy) (nv : Nat) (r : Nat) :
    ∀ (vn c : Nat) (s : GS) (v : Visit),
      v ∈ (genVisitsGo preg nv vn r c s).1 →
      ∃ k cc ss, vn ≤ k ∧ k < vn + r ∧ v = (genVisit preg k nv cc ss).1 := by
  induction r with
  | zero => intro vn c s v hv; simp [genVisitsGo] at hv
  | succ n ih =>
    intro vn c s v hv
    simp only [genVisitsGo, List.mem_cons] at hv
    rcases hv with h | h
    · exact ⟨vn, c, s, Nat.le_refl vn, by omega, h⟩
    · obtain ⟨k, cc, ss, hk1, hk2, he⟩ := ih _ _ _ v h
      exact ⟨k, cc, ss, by omega, by omega, he⟩

theorem genVisitsFor_mem (preg : Pregnancy) (c : Nat) (s : GS) (v : Visit)
    (hv : v ∈ (genVisitsFor preg c s).1) :
    ∃ k nv cc ss, 1 ≤ k ∧ k ≤ nv ∧ nv ≤ 12 ∧ v = (genVisit preg k nv cc ss).1 := by
  unfold genVisitsFor at hv
  obtain ⟨k, cc, ss, hk1, hk2, he⟩ := genVisitsGo_mem preg _ _ _ _ _ v hv
  obtain ⟨hnv1, hnv2⟩ := numVisitsDraw_bounds preg.gestational_weeks s
  exact ⟨k, _, cc, ss, hk1, by omega, hnv2, he⟩

theorem genVisitsAll_mem (pregs : List Pregnancy) :
    ∀ (c : Nat) (s : GS) (v : Visit), v ∈ (genVisitsAll pregs c s).1 →
      ∃ p ∈ pregs, ∃ k nv cc ss,
        1 ≤ k ∧ k ≤ nv ∧ nv ≤ 12 ∧ v = (genVisit p k nv cc ss).1 := by
  induction pregs with
  | nil => intro c s v hv; simp [genVisitsAll] at hv
  | cons preg rest ih =>
    intro c s v hv
    simp only [genVisitsAll, List.mem_append] at hv
    rcases hv with h | h
    · exact ⟨preg, List.mem_cons_self preg rest, genVisitsFor_mem preg _ _ v h⟩
    · obtain ⟨p, hp, hrest⟩ := ih _ _ v h
      exact ⟨p, List.mem_cons_of_mem preg hp, hrest⟩

/- ========================================================================
   Structural lemmas about deliveries and birth outcomes.
   ======================================================================== -/

theorem genDelivery_pregnancy_id (preg : Pregnancy) (s : GS) :
    ((genDelivery preg s).1).pregnancy_id = preg.pregnancy_id := by
  simp only [genDelivery]

theorem genDelivery_delivery_id (preg : Pregnancy) (s : GS) :
    ((genDelivery preg s).1).delivery_id = "DEL_" ++ idNum preg.pregnancy_id := by
  simp only [genDelivery]

theorem genDeliveriesAll_length (pregs : List Pregnancy) :
    ∀ s : GS, (genDeliveriesAll pregs s).1.length = pregs.length := by
  induction pregs with
  | nil => intro s; rfl
  | cons preg rest ih =>
    intro s
    simp only [genDeliveriesAll, List.length_cons]
    rw [ih]

theorem genDeliveriesAll_mem (pregs : List Pregnancy) :
    ∀ (s : GS) (d : Delivery), d ∈ (genDeliveriesAll pregs s).1 →
      ∃ p ∈ pregs, d.pregnancy_id = p.pregnancy_id
        ∧ d.delivery_id = "DEL_" ++ idNum p.pregnancy_id := by
  induction pregs with
  | nil => intro s d hd; simp [genDeliveriesAll] at hd
  | cons preg rest ih =>
    intro s d hd
    simp only [genDeliveriesAll, List.mem_cons] at hd
    rcases hd with h | h
    · exact ⟨preg, List.mem_cons_self preg rest,
        h ▸ genDelivery_pregnancy_id preg s, h ▸ genDelivery_delivery_id preg s⟩
    · obtain ⟨p, hp, h1, h2⟩ := ih _ d h
      exact ⟨p, List.mem_cons_of_mem preg hp, h1, h2⟩

theorem genDeliveriesAll_covers (pregs : List Pregnancy) :
    ∀ (s : GS) (p : Pregnancy), p ∈ pregs →
      ∃ d ∈ (genDeliveriesAll pregs s).1, d.pregnancy_id = p.pregnancy_id
        ∧ d.delivery_id = "DEL_" ++ idNum p.pregnancy_id := by
  induction pregs with
  | nil => intro s p hp; simp at hp
  | cons preg rest ih =>
    intro s p hp
    rcases List.mem_cons.mp hp with h | h
    · subst h
      exact ⟨(genDelivery p s).1, List.mem_cons_self _ _,
        genDelivery_pregnancy_id p s, genDelivery_delivery_id p s⟩
    · obtain ⟨d, hd, h1, h2⟩ := ih _ p h
      exact ⟨d, List.mem_cons_of_mem _ hd, h1, h2⟩

theorem genOutcome_pregnancy_id (preg : Pregnancy) (inf c : Nat) (s : GS) :
    ((genOutcome preg inf c s).1).pregnancy_id = preg.pregnancy_id := by
  simp only [genOutcome]

theorem genOutcome_delivery_id (preg : Pregnancy) (inf c : Nat) (s : GS) :
    ((genOutcome preg inf c s).1).delivery_id = "DEL_" ++ idNum preg.pregnancy_id := by
  simp only [genOutcome]

theorem genOutcome_bw_bounds (preg : Pregnancy) (inf c : Nat) (s : GS) :
    500 ≤ ((genOutcome preg inf c s).1).birth_weight_grams
    ∧ ((genOutcome preg inf c s).1).birth_weight_grams ≤ 5500 := by
  simp only [genOutcome]
  exact ⟨le_max_left _ _, max_le (by norm_num) (min_le_right _ _)⟩

theorem mem_apgar_wide {x : Nat} (h : x ∈ ([8, 9, 10] : List Nat)) :
    x ∈ ([6, 7, 8, 9, 10] : List Nat) := by
  simp only [List.mem_cons, List.not_mem_nil, or_false] at h ⊢
  omega

theorem genOutcome_apgar5_mem (preg : Pregnancy) (inf c : Nat) (s : GS) :
    ((genOutcome preg inf c s).1).apgar_5min ∈ ([6, 7, 8, 9, 10] : List Nat) := by
  simp only [genOutcome]
  split_ifs with h1 h2 h3
  all_goals
    first
      | exact mem_apgar_wide (chooseFrom_mem ([8, 9, 10] : List Nat) _ (by simp))
      | exact chooseFrom_mem ([6, 7, 8, 9, 10] : List Nat) _ (by simp)

theorem genOutcomesGo_length (preg : Pregnancy) (r : Nat) :
    ∀ (inf c : Nat) (s : GS), (genOutcomesGo preg inf r c s).1.length = r := by
  induction r with
  | zero => intro inf c s; rfl
  | succ n ih =>
    intro inf c s
    simp only [genOutcomesGo, List.length_cons]
    rw [ih]

theorem genOutcomesGo_mem (preg : Pregnancy) (r : Nat) :
    ∀ (inf c : Nat) (s : GS) (o : BirthOutcome),
      o ∈ (genOutcomesGo preg inf r c s).1 →
      ∃ i cc ss, o = (genOutcome preg i cc ss).1 := by
  induction r with
  | zero => intro inf c s o ho; simp [genOutcomesGo] at ho
  | succ n ih =>
    intro inf c s o ho
    simp only [genOutcomesGo, List.mem_cons] at ho
    rcases ho with h | h
    · exact ⟨inf, c, s, h⟩
    · exact ih _ _ _ o h

theorem genOutcomesFor_length (preg : Pregnancy) (c : Nat) (s : GS) :
    (genOutcomesFor preg c s).1.length
      = if preg.is_multiple_gestation then 2 else 1 := by
  unfold genOutcomesFor
  split_ifs with h <;> simp [h, genOutcomesGo_length]

theorem genOutcomesAll_length (pregs : List Pregnancy) :
    ∀ (c : Nat) (s : GS),
      (genOutcomesAll pregs c s).1.length
        = pregs.length + pregs.countP (fun p => p.is_multiple_gestation) := by
  induction pregs with
  | nil => intro c s; rfl
  | cons preg rest ih =>
    intro c s
    simp only [genOutcomesAll, List.length_append, List.length_cons,
      List.countP_cons]
    rw [ih, genOutcomesFor_length]
    split_ifs with h <;> omega

theorem genOutcomesAll_mem (pregs : List Pregnancy) :
    ∀ (c : Nat) (s : GS) (o : BirthOutcome),
      o ∈ (genOutcomesAll pregs c s).1 →
      ∃ p ∈ pregs, ∃ i cc ss, o = (genOutcome p i cc ss).1 := by
  induction pregs with
  | nil => intro c s o ho; simp [genOutcomesAll] at ho
  | cons preg rest ih =>
    intro c s o ho
    simp only [genOutcomesAll, List.mem_append] at ho
    rcases ho with h | h
    · obtain ⟨i, cc, ss, he⟩ := genOutcomesGo_mem preg _ _ _ _ o h
      exact ⟨preg, List.mem_cons_self preg rest, i, cc, ss, he⟩
    · obtain ⟨p, hp, hrest⟩ := ih _ _ o h
      exact ⟨p, List.mem_cons_of_mem preg hp, hrest⟩

theorem genPregsForPatient_length (pid : String) (bd : Int) (r : Nat) :
    ∀ (pn c : Nat) (s : GS), (genPregsForPatient pid bd pn r c s).1.length = r := by
  induction r with
  | zero => intro pn c s; rfl
  | succ n ih =>
    intro pn c s
    simp only [genPregsForPatient, List.length_cons]
    rw [ih]

theorem generateParity_bounds (g : Rng) :
    1 ≤ (generateParity g).1 ∧ (generateParity g).1 ≤ 4 := by
  have hm := chooseFrom_mem ([1, 2, 3, 4] : List Nat) g (by simp)
  have : (generateParity g).1 ∈ ([1, 2, 3, 4] : List Nat) := hm
  simp only [List.mem_cons, List.not_mem_nil, or_false] at this
  omega

theorem genPregnanciesAll_count (pats : List Patient) :
    ∀ (c : Nat) (s : GS), ∃ ps : List Nat,
      ps.length = pats.length ∧ (∀ x ∈ ps, 1 ≤ x ∧ x ≤ 4)
      ∧ (genPregnanciesAll pats c s).1.length = ps.sum := by
  induction pats with
  | nil => exact fun c s => ⟨[], rfl, by simp, rfl⟩
  | cons pat rest ih =>
    intro c s
    obtain ⟨ps, h1, h2, h3⟩ := ih
      ((genPregsForPatient pat.patient_id pat.birth_date 1
        (liftPy generateParity s).1 c (liftPy generateParity s).2).2.1)
      ((genPregsForPatient pat.patient_id pat.birth_date 1
        (liftPy generateParity s).1 c (liftPy generateParity s).2).2.2)
    refine ⟨(generateParity s.py).1 :: ps, by simp [h1], ?_, ?_⟩
    · intro x hx
      rcases List.mem_cons.mp hx with h | h
      · exact h ▸ generateParity_bounds s.py
      · exact h2 x h
    · simp only [genPregnanciesAll, List.length_append, List.sum_cons]
      rw [genPregsForPatient_length, h3]
      rfl

/- ========================================================================
   How the defect injection relates the final tables to the clean ones.
   ======================================================================== -/

theorem applyAll_proj_mem {α : Type _} {β : Type _} (g : α → β) (f : α → α)
    (hg : ∀ x, g (f x) = g x)
    (l : List α) (idxs : List Nat) (v : α) (hv : v ∈ applyAll f l idxs) :
    ∃ u ∈ l, g u = g v := by
  have hmem : g v ∈ (applyAll f l idxs).map g := by
    exact List.mem_map.mpr ⟨v, hv, rfl⟩
  rw [map_applyAll g f hg l idxs] at hmem
  obtain ⟨u, hu, he⟩ := List.mem_map.mp hmem
  exact ⟨u, hu, he⟩

theorem mem_map_transfer {α : Type _} {β : Type _} {l₁ l₂ : List α} (g : α → β)
    (h : l₂.map g = l₁.map g)
    (a : α) (ha : a ∈ l₁) : ∃ b ∈ l₂, g b = g a := by
  have hmem : g a ∈ l₁.map g := by
    exact List.mem_map.mpr ⟨a, ha, rfl⟩
  rw [← h] at hmem
  obtain ⟨b, hb, he⟩ := List.mem_map.mp hmem
  exact ⟨b, hb, he⟩

theorem injectDefects_fst (pats : List Patient) (vis : List Visit) (s : GS) :
    (injectDefects pats vis s).1
      = applyAll clearEducation pats (pySample pats.length 50 s).1 := rfl

theorem injectDefects_snd (pats : List Patient) (vis : List Visit) (s : GS) :
    (injectDefects pats vis s).2.1
      = (let rp := pySample pats.length 50 s
         let rv := pySample vis.length 100 rp.2
         let vis1 := applyAll clearBp vis rv.1
         let rd := npSample vis1.length 20 rv.2
         let vis2 := vis1 ++ rd.1.map (fun i => vis1.getD i default)
         let rb := npSample vis2.length 10 rd.2
         applyAll shiftVisitDate vis2 rb.1) := rfl

theorem inject_patients_map {β : Type _} (pats : List Patient) (vis : List Visit)
    (s : GS) (g : Patient → β) (hg : ∀ a, g (clearEducation a) = g a) :
    ((injectDefects pats vis s).1).map g = pats.map g := by
  rw [injectDefects_fst]
  exact map_applyAll g clearEducation hg pats _

theorem inject_visits_proj {β : Type _} (g : Visit → β)
    (hg1 : ∀ v, g (clearBp v) = g v) (hg2 : ∀ v, g (shiftVisitDate v) = g v)
    (pats : List Patient) (vis : List Visit) (s : GS) (v : Visit)
    (hv : v ∈ (injectDefects pats vis s).2.1) :
    ∃ u ∈ vis, g u = g v := by
  rw [injectDefects_snd] at hv
  simp only at hv
  obtain ⟨w, hw, hew⟩ := applyAll_proj_mem g shiftVisitDate hg2 _ _ v hv
  have hw2 : w ∈ applyAll clearBp vis
      (pySample vis.length 100 (pySample pats.length 50 s).2).1 := by
    rcases List.mem_append.mp hw with h | h
    · exact h
    · obtain ⟨i, hi, he⟩ := List.mem_map.mp h
      have hlt := npSample_mem_lt _ 20 _ i hi
      exact he ▸ getD_mem_of_lt _ i default hlt
  obtain ⟨u, hu, heu⟩ := applyAll_proj_mem g clearBp hg1 _ _ w hw2
  exact ⟨u, hu, heu.trans hew⟩

theorem inject_patients_length (pats : List Patient) (vis : List Visit) (s : GS) :
    ((injectDefects pats vis s).1).length = pats.length := by
  rw [injectDefects_fst, applyAll_length]

theorem generateAll_patients_eq (n : Nat) (s : GS) :
    (generateAll n s).patients
      = (injectDefects (generateTables n s).patients (generateTables n s).visits
          (genPipeline n s).2).1 := rfl

theorem generateAll_visits_eq (n : Nat) (s : GS) :
    (generateAll n s).visits
      = (injectDefects (generateTables n s).patients (generateTables n s).visits
          (genPipeline n s).2).2.1 := rfl

theorem generateAll_pregnancies_eq (n : Nat) (s : GS) :
    (generateAll n s).pregnancies = (generateTables n s).pregnancies := rfl

theorem generateAll_deliveries_eq (n : Nat) (s : GS) :
    (generateAll n s).deliveries = (generateTables n s).deliveries := rfl

theorem generateAll_outcomes_eq (n : Nat) (s : GS) :
    (generateAll n s).outcomes = (generateTables n s).outcomes := rfl

theorem generateTables_pregnancies_eq (n : Nat) (s : GS) :
    (generateTables n s).pregnancies
      = (genPregnanciesAll (genPatientsAux 0 n s).1 1 (genPatientsAux 0 n s).2).1 := rfl

theorem generateTables_patients_eq (n : Nat) (s : GS) :
    (generateTables n s).patients = (genPatientsAux 0 n s).1 := rfl

theorem generateTables_visits_eq (n : Nat) (s : GS) :
    (generateTables n s).visits
      = (genVisitsAll (genPregnanciesAll (genPatientsAux 0 n s).1 1
            (genPatientsAux 0 n s).2).1 1
          (genPregnanciesAll (genPatientsAux 0 n s).1 1
            (genPatientsAux 0 n s).2).2.2).1 := rfl

theorem generateTables_deliveries_eq (n : Nat) (s : GS) :
    (generateTables n s).deliveries
      = (genDeliveriesAll (genPregnanciesAll (genPatientsAux 0 n s).1 1
            (genPatientsAux 0 n s).2).1
          (genVisitsAll (genPregnanciesAll (genPatientsAux 0 n s).1 1
              (genPatientsAux 0 n s).2).1 1
            (genPregnanciesAll (genPatientsAux 0 n s).1 1
              (genPatientsAux 0 n s).2).2.2).2.2).1 := rfl

theorem generateTables_outcomes_eq (n : Nat) (s : GS) :
    (generateTables n s).outcomes
      = (genOutcomesAll (genPregnanciesAll (genPatientsAux 0 n s).1 1
            (genPatientsAux 0 n s).2).1 1
          (genDeliveriesAll (genPregnanciesAll (genPatientsAux 0 n s).1 1
              (genPatientsAux 0 n s).2).1
            (genVisitsAll (genPregnanciesAll (genPatientsAux 0 n s).1 1
                (genPatientsAux 0 n s).2).1 1
              (genPregnanciesAll (genPatientsAux 0 n s).1 1
                (genPatientsAux 0 n s).2).2.2).2.2).2).1 := rfl

/-- C3: in the final written tables every pregnancy references an
existing patient, every visit an existing pregnancy, every delivery an
existing pregnancy, and every birth outcome an existing pregnancy and an
existing delivery; the defect injection never touches a key column. -/
theorem c3_referential_integrity (n : Nat) (s : GS) :
    (∀ p ∈ (generateAll n s).pregnancies,
      ∃ a ∈ (generateAll n s).patients, p.patient_id = a.patient_id)
    ∧ (∀ v ∈ (generateAll n s).visits,
      ∃ p ∈ (generateAll n s).pregnancies, v.pregnancy_id = p.pregnancy_id)
    ∧ (∀ d ∈ (generateAll n s).deliveries,
      ∃ p ∈ (generateAll n s).pregnancies, d.pregnancy_id = p.pregnancy_id)
    ∧ (∀ o ∈ (generateAll n s).outcomes,
      (∃ p ∈ (generateAll n s).pregnancies, o.pregnancy_id = p.pregnancy_id)
      ∧ ∃ d ∈ (generateAll n s).deliveries, o.delivery_id = d.delivery_id) := by
  refine ⟨?_, ?_, ?_, ?_⟩
  · intro p hp
    rw [generateAll_pregnancies_eq, generateTables_pregnancies_eq] at hp
    obtain ⟨⟨a, ha, he⟩, _⟩ := genPregnanciesAll_mem _ _ _ p hp
    have hmap : ((generateAll n s).patients).map (fun x => x.patient_id)
        = ((generateTables n s).patients).map (fun x => x.patient_id) := by
      rw [generateAll_patients_eq]
      exact inject_patients_map _ _ _ _ (fun a => rfl)
    have ha2 : a ∈ (generateTables n s).patients := by
      rw [generateTables_patients_eq]; exact ha
    obtain ⟨b, hb, hbe⟩ := mem_map_transfer (fun x => x.patient_id) hmap a ha2
    exact ⟨b, hb, by rw [he, ← hbe]⟩
  · intro v hv
    rw [generateAll_visits_eq] at hv
    obtain ⟨u, hu, he⟩ := inject_visits_proj (fun x => x.pregnancy_id)
      (fun x => rfl) (fun x => rfl) _ _ _ v hv
    rw [generateTables_visits_eq] at hu
    obtain ⟨p, hp, k, nv, cc, ss, h1, h2, h3, hue⟩ := genVisitsAll_mem _ _ _ u hu
    refine ⟨p, ?_, ?_⟩
    · rw [generateAll_pregnancies_eq, generateTables_pregnancies_eq]; exact hp
    · rw [← he, hue]; exact genVisit_pregnancy_id p k nv cc ss
  · intro d hd
    rw [generateAll_deliveries_eq, generateTables_deliveries_eq] at hd
    obtain ⟨p, hp, h1, h2⟩ := genDeliveriesAll_mem _ _ d hd
    refine ⟨p, ?_, h1⟩
    rw [generateAll_pregnancies_eq, generateTables_pregnancies_eq]; exact hp
  · intro o ho
    rw [generateAll_outcomes_eq, generateTables_outcomes_eq] at ho
    obtain ⟨p, hp, i, cc, ss, he⟩ := genOutcomesAll_mem _ _ _ o ho
    constructor
    · refine ⟨p, ?_, ?_⟩
      · rw [generateAll_pregnancies_eq, generateTables_pregnancies_eq]; exact hp
      · rw [he]; exact genOutcome_pregnancy_id p i cc ss
    · obtain ⟨d, hd, hd1, hd2⟩ := genDeliveriesAll_covers _ _ p hp
      refine ⟨d, ?_, ?_⟩
      · rw [generateAll_deliveries_eq, generateTables_deliveries_eq]; exact hd
      · rw [he, genOutcome_delivery_id p i cc ss, hd2]

/-- C4: one delivery per pregnancy, one outcome per pregnancy plus one
extra per multiple gestation, and the pregnancies count is the sum of
the per-patient parity draws, each in 1..4. -/
theorem c4_child_row_counts (n : Nat) (s : GS) :
    (generateAll n s).deliveries.length = (generateAll n s).pregnancies.length
    ∧ (generateAll n s).outcomes.length
      = (generateAll n s).pregnancies.length
        + (generateAll n s).pregnancies.countP (fun p => p.is_multiple_gestation)
    ∧ ∃ ps : List Nat,
        ps.length = (generateAll n s).patients.length
        ∧ (∀ x ∈ ps, 1 ≤ x ∧ x ≤ 4)
        ∧ (generateAll n s).pregnancies.length = ps.sum := by
  refine ⟨?_, ?_, ?_⟩
  · rw [generateAll_deliveries_eq, generateAll_pregnancies_eq,
      generateTables_deliveries_eq, generateTables_pregnancies_eq]
    exact genDeliveriesAll_length _ _
  · rw [generateAll_outcomes_eq, generateAll_pregnancies_eq,
      generateTables_outcomes_eq, generateTables_pregnancies_eq]
    exact genOutcomesAll_length _ _ _
  · obtain ⟨ps, h1, h2, h3⟩ := genPregnanciesAll_count (genPatientsAux 0 n s).1 1
      (genPatientsAux 0 n s).2
    refine ⟨ps, ?_, h2, ?_⟩
    · rw [generateAll_patients_eq, inject_patients_length,
        generateTables_patients_eq, h1]
    · rw [generateAll_pregnancies_eq, generateTables_pregnancies_eq]
      exact h3

/-- C5: every birth outcome row has birth_weight_grams in [500, 5500]
and apgar_5min in the discrete support 6..10. -/
theorem c5_outcome_ranges (n : Nat) (s : GS) :
    ∀ o ∈ (generateAll n s).outcomes,
      500 ≤ o.birth_weight_grams ∧ o.birth_weight_grams ≤ 5500
      ∧ o.apgar_5min ∈ ([6, 7, 8, 9, 10] : List Nat) := by
  intro o ho
  rw [generateAll_outcomes_eq, generateTables_outcomes_eq] at ho
  obtain ⟨p, hp, i, cc, ss, he⟩ := genOutcomesAll_mem _ _ _ o ho
  rw [he]
  exact ⟨(genOutcome_bw_bounds p i cc ss).1, (genOutcome_bw_bounds p i cc ss).2,
    genOutcome_apgar5_mem p i cc ss⟩

/-- C7: every prenatal visit as generated (before the defect injection)
falls strictly between the LMP date and the delivery date of its
pregnancy. -/
theorem c7_visit_dates_window (n : Nat) (s : GS) :
    ∀ v ∈ (generateTables n s).visits,
      ∃ p ∈ (generateTables n s).pregnancies,
        v.pregnancy_id = p.pregnancy_id
        ∧ p.lmp_date < v.visit_date ∧ v.visit_date < p.delivery_date := by
  intro v hv
  rw [generateTables_visits_eq] at hv
  obtain ⟨p, hp, k, nv, cc, ss, h1, h2, h3, he⟩ := genVisitsAll_mem _ _ _ v hv
  have hwf := (genPregnanciesAll_mem _ _ _ p hp).2
  have hdates := genVisit_date_bounds p k nv cc ss hwf h1 h2 h3
  refine ⟨p, ?_, ?_, ?_, ?_⟩
  · rw [generateTables_pregnancies_eq]; exact hp
  · rw [he]; exact genVisit_pregnancy_id p k nv cc ss
  · rw [he]; exact hdates.1
  · rw [he]; exact hdates.2

/-- C6 (amended): every prenatal visit carries a risk score at least the
initial risk score of its pregnancy. -/
theorem c6_amended_risk_floor (n : Nat) (s : GS) :
    ∀ v ∈ (generateTables n s).visits,
      ∃ p ∈ (generateTables n s).pregnancies,
        v.pregnancy_id = p.pregnancy_id
        ∧ p.initial_risk_score ≤ v.risk_score_at_visit := by
  intro v hv
  rw [generateTables_visits_eq] at hv
  obtain ⟨p, hp, k, nv, cc, ss, h1, h2, h3, he⟩ := genVisitsAll_mem _ _ _ v hv
  refine ⟨p, ?_, ?_, ?_⟩
  · rw [generateTables_pregnancies_eq]; exact hp
  · rw [he]; exact genVisit_pregnancy_id p k nv cc ss
  · rw [he]; exact genVisit_risk_ge p k nv cc ss

/-- C10: maternal_age_at_delivery of every generated pregnancy lies in
[15, 50]; the adjustment raises an age below 15 to exactly 15 moving the
delivery date later, resets an age above 50 to exactly 45 moving the
delivery date earlier, and leaves ages 46 through 50 unchanged, so the
upper bound is 50 and not 45. -/
theorem c10_maternal_age_window (n : Nat) (s : GS) :
    (∀ p ∈ (generateAll n s).pregnancies,
      15 ≤ p.maternal_age_at_delivery ∧ p.maternal_age_at_delivery ≤ 50)
    ∧ (∀ deliveryDate0 age0 : Int,
        (age0 < 15 →
          adjustMaternalAge deliveryDate0 age0
              = (deliveryDate0 + 365 * (15 - age0), 15)
            ∧ deliveryDate0 < (adjustMaternalAge deliveryDate0 age0).1)
        ∧ (50 < age0 →
          adjustMaternalAge deliveryDate0 age0
              = (deliveryDate0 - 365 * (age0 - 45), 45)
            ∧ (adjustMaternalAge deliveryDate0 age0).1 < deliveryDate0)
        ∧ (46 ≤ age0 → age0 ≤ 50 →
          adjustMaternalAge deliveryDate0 age0 = (deliveryDate0, age0))) := by
  constructor
  · intro p hp
    rw [generateAll_pregnancies_eq, generateTables_pregnancies_eq] at hp
    have hwf := (genPregnanciesAll_mem _ _ _ p hp).2
    exact ⟨hwf.2.2.2.1, hwf.2.2.2.2⟩
  · intro dd age0
    refine ⟨fun h => ?_, fun h => ?_, fun h1 h2 => ?_⟩
    · have he : adjustMaternalAge dd age0 = (dd + 365 * (15 - age0), 15) := by
        simp only [adjustMaternalAge]; rw [if_pos h]
      exact ⟨he, by rw [he]; simp; omega⟩
    · have hA : ¬(age0 < 15) := by omega
      have he : adjustMaternalAge dd age0 = (dd - 365 * (age0 - 45), 45) := by
        simp only [adjustMaternalAge]; rw [if_neg hA, if_pos h]
      exact ⟨he, by rw [he]; simp; omega⟩
    · have hA : ¬(age0 < 15) := by omega
      have hB : ¬(age0 > 50) := by omega
      simp only [adjustMaternalAge]; rw [if_neg hA, if_neg hB]

/- ========================================================================
   Concrete instances: an all-zero oracle run, and an engineered oracle
   under which one pregnancy has a visit sequence whose risk score
   decreases between consecutive visits.
   ======================================================================== -/

/-- All-zero oracles: a minimal concrete run. -/
def zeroState : GS := ⟨⟨fun _ => 0, 0⟩, ⟨fun _ => 0, 0⟩, ⟨fun _ => 0, 0⟩⟩

/-- A Python-stream oracle under which patient 1 gets one pregnancy with
37 gestational weeks and 7 visits, the 4th visit drawing the highest
systolic base (130) and offset (+5) so that 140 <= bp adds 2 to its risk
score, while the 5th visit draws low blood pressures. -/
def riskDipOracle : Nat → Nat := fun k =>
  if k = 0 then 16
  else if k = 15 then 15
  else if k = 16 then 1
  else if 18 ≤ k ∧ k ≤ 25 then 999999
  else if k = 55 then 30
  else if k = 57 then 10
  else 0

def riskDipState : GS := ⟨⟨riskDipOracle, 0⟩, ⟨fun _ => 0, 0⟩, ⟨fun _ => 0, 0⟩⟩

/-- C3 witness: the instance at a concrete one-patient run, with the
membership hypothesis discharged at the first pregnancy row. -/
theorem c3_referential_integrity_witness :
    ∃ a ∈ (generateAll 1 zeroState).patients,
      ((generateAll 1 zeroState).pregnancies.getD 0 default).patient_id
        = a.patient_id := by
  have hlen : 0 < (generateAll 1 zeroState).pregnancies.length := by
    with_unfolding_all decide
  exact (c3_referential_integrity 1 zeroState).1 _ (getD_mem_of_lt _ 0 default hlen)

/-- C4 witness: the count identities at a concrete one-patient run. -/
theorem c4_child_row_counts_witness :
    (generateAll 1 zeroState).deliveries.length
      = (generateAll 1 zeroState).pregnancies.length
    ∧ (generateAll 1 zeroState).outcomes.length
      = (generateAll 1 zeroState).pregnancies.length
        + (generateAll 1 zeroState).pregnancies.countP
            (fun p => p.is_multiple_gestation)
    ∧ ∃ ps : List Nat,
        ps.length = (generateAll 1 zeroState).patients.length
        ∧ (∀ x ∈ ps, 1 ≤ x ∧ x ≤ 4)
        ∧ (generateAll 1 zeroState).pregnancies.length = ps.sum :=
  c4_child_row_counts 1 zeroState

/-- C5 witness: the bounds at the first outcome row of a concrete run. -/
theorem c5_outcome_ranges_witness :
    500 ≤ ((generateAll 1 zeroState).outcomes.getD 0 default).birth_weight_grams
    ∧ ((generateAll 1 zeroState).outcomes.getD 0 default).birth_weight_grams ≤ 5500
    ∧ ((generateAll 1 zeroState).outcomes.getD 0 default).apgar_5min
        ∈ ([6, 7, 8, 9, 10] : List Nat) := by
  have hlen : 0 < (generateAll 1 zeroState).outcomes.length := by
    with_unfolding_all decide
  exact c5_outcome_ranges 1 zeroState _ (getD_mem_of_lt _ 0 default hlen)

/-- C7 witness: the window at the first visit row of a concrete run. -/
theorem c7_visit_dates_window_witness :
    ∃ p ∈ (generateTables 1 zeroState).pregnancies,
      ((generateTables 1 zeroState).visits.getD 0 default).pregnancy_id
          = p.pregnancy_id
      ∧ p.lmp_date < ((generateTables 1 zeroState).visits.getD 0 default).visit_date
      ∧ ((generateTables 1 zeroState).visits.getD 0 default).visit_date
          < p.delivery_date := by
  have hlen : 0 < (generateTables 1 zeroState).visits.length := by
    with_unfolding_all decide
  exact c7_visit_dates_window 1 zeroState _ (getD_mem_of_lt _ 0 default hlen)

/-- C6 witness for the amended claim: the floor at the first visit row
of a concrete run. -/
theorem c6_amended_risk_floor_witness :
    ∃ p ∈ (generateTables 1 zeroState).pregnancies,
      ((generateTables 1 zeroState).visits.getD 0 default).pregnancy_id
          = p.pregnancy_id
      ∧ p.initial_risk_score
          ≤ ((generateTables 1 zeroState).visits.getD 0 default).risk_score_at_visit := by
  have hlen : 0 < (generateTables 1 zeroState).visits.length := by
    with_unfolding_all decide
  exact c6_amended_risk_floor 1 zeroState _ (getD_mem_of_lt _ 0 default hlen)

/-- C6 counterexample: the claim as stated is false.  Under the
engineered oracle the generated visits table contains two visits of the
same pregnancy with consecutive visit numbers whose risk score
decreases (visit 4 has score 3, visit 5 has score 1). -/
theorem c6_risk_monotonicity_counterexample :
    ¬ (∀ (n : Nat) (s : GS), ∀ v ∈ (generateTables n s).visits,
        ∀ w ∈ (generateTables n s).visits,
        v.pregnancy_id = w.pregnancy_id → v.visit_number + 1 = w.visit_number →
        v.risk_score_at_visit ≤ w.risk_score_at_visit) := by
  intro hmono
  have hlen : 4 < (generateTables 1 riskDipState).visits.length := by
    with_unfolding_all decide
  have h3 := getD_mem_of_lt (generateTables 1 riskDipState).visits 3 default
    (by omega)
  have h4 := getD_mem_of_lt (generateTables 1 riskDipState).visits 4 default hlen
  have hfacts :
      ((generateTables 1 riskDipState).visits.getD 3 default).pregnancy_id
        = ((generateTables 1 riskDipState).visits.getD 4 default).pregnancy_id
      ∧ ((generateTables 1 riskDipState).visits.getD 3 default).visit_number + 1
        = ((generateTables 1 riskDipState).visits.getD 4 default).visit_number
      ∧ ((generateTables 1 riskDipState).visits.getD 4 default).risk_score_at_visit
        < ((generateTables 1 riskDipState).visits.getD 3 default).risk_score_at_visit := by
    with_unfolding_all decide
  have := hmono 1 riskDipState _ h3 _ h4 hfacts.1 hfacts.2.1
  omega

/-- C10 witness: the bound at the first pregnancy row of a concrete run
and the adjustment branches at concrete ages 10, 55 and 47. -/
theorem c10_maternal_age_window_witness :
    (15 ≤ ((generateAll 1 zeroState).pregnancies.getD 0 default).maternal_age_at_delivery
      ∧ ((generateAll 1 zeroState).pregnancies.getD 0 default).maternal_age_at_delivery ≤ 50)
    ∧ adjustMaternalAge 1000 10 = (1000 + 365 * 5, 15)
    ∧ adjustMaternalAge 1000 55 = (1000 - 365 * 10, 45)
    ∧ adjustMaternalAge 1000 47 = (1000, 47) := by
  have hlen : 0 < (generateAll 1 zeroState).pregnancies.length := by
    with_unfolding_all decide
  refine ⟨(c10_maternal_age_window 1 zeroState).1 _ (getD_mem_of_lt _ 0 default hlen),
    ?_, ?_, ?_⟩
  · have h := ((c10_maternal_age_window 1 zeroState).2 1000 10).1 (by omega)
    rw [h.1]; norm_num
  · have h := ((c10_maternal_age_window 1 zeroState).2 1000 55).2.1 (by omega)
    rw [h.1]; norm_num
  · exact ((c10_maternal_age_window 1 zeroState).2 1000 47).2.2 (by omega) (by omega)

/- ========================================================================
   Claim C2: the quality-defect injection counts.
   ======================================================================== -/

theorem isNone_eq_false_of_isSome {o : Option α} (h : o.isSome = true) :
    o.isNone = false := by
  cases o with
  | none => simp at h
  | some a => rfl

theorem countP_applyAll_invariant (p : α → Bool) (f : α → α)
    (hp : ∀ x, p (f x) = p x) (l : List α) (idxs : List Nat) :
    (applyAll f l idxs).countP p = l.countP p := by
  have e1 : ∀ m : List α, m.countP p = (m.map p).countP (fun b => b) := by
    intro m
    rw [List.countP_map]
    rfl
  rw [e1, e1, map_applyAll p f hp l idxs]

/-- C2 (amended): the injection nulls education_level on exactly 50
distinct patient rows and bp_systolic on exactly 100 distinct visit
rows, appends exactly 20 duplicates of rows of the nulled visits table,
and shifts exactly 10 distinct rows of the concatenated table; in the
final tables the education-null count is exactly 50 and the visits
table has exactly 20 more rows, while the bp-null count is at least 100
(100 plus the number of appended duplicates drawn among nulled rows,
which the duplicate sample may exceed). -/
theorem c2_amended_defect_counts (pats : List Patient) (vis : List Visit) (s : GS)
    (hp : 50 ≤ pats.length) (hv : 100 ≤ vis.length)
    (hpe : ∀ a ∈ pats, a.education_level.isSome = true)
    (hvb : ∀ v ∈ vis, v.bp_systolic.isSome = true) :
    ((injectDefects pats vis s).1).length = pats.length
    ∧ (∃ eduIdx : List Nat,
        eduIdx.Nodup ∧ eduIdx.length = 50 ∧ (∀ i ∈ eduIdx, i < pats.length)
        ∧ (injectDefects pats vis s).1 = applyAll clearEducation pats eduIdx)
    ∧ ((injectDefects pats vis s).1).countP (fun a => a.education_level.isNone) = 50
    ∧ ((injectDefects pats vis s).2.1).length = vis.length + 20
    ∧ (∃ (bpIdx : List Nat) (vis1 dups : List Visit) (shiftIdx : List Nat),
        bpIdx.Nodup ∧ bpIdx.length = 100 ∧ (∀ i ∈ bpIdx, i < vis.length)
        ∧ vis1 = applyAll clearBp vis bpIdx
        ∧ vis1.countP (fun v => v.bp_systolic.isNone) = 100
        ∧ dups.length = 20 ∧ (∀ x ∈ dups, x ∈ vis1)
        ∧ shiftIdx.Nodup ∧ shiftIdx.length = 10
        ∧ (∀ i ∈ shiftIdx, i < vis1.length + 20)
        ∧ (injectDefects pats vis s).2.1
            = applyAll shiftVisitDate (vis1 ++ dups) shiftIdx)
    ∧ 100 ≤ ((injectDefects pats vis s).2.1).countP
        (fun v => v.bp_systolic.isNone) := by
  have hpe0 : pats.countP (fun a => a.education_level.isNone) = 0 :=
    List.countP_eq_zero.mpr (fun a ha => by
      rw [isNone_eq_false_of_isSome (hpe a ha)]; exact Bool.false_ne_true)
  have hvb0 : vis.countP (fun v => v.bp_systolic.isNone) = 0 :=
    List.countP_eq_zero.mpr (fun v hvm => by
      rw [isNone_eq_false_of_isSome (hvb v hvm)]; exact Bool.false_ne_true)
  have hpLen := pySample_length pats.length 50 s hp
  have hpNodup := pySample_nodup pats.length 50 s
  have hpMem := pySample_mem_lt pats.length 50 s
  set rp := pySample pats.length 50 s with hrp
  set rv := pySample vis.length 100 rp.2 with hrv
  have hvLen := pySample_length vis.length 100 rp.2 hv
  have hvNodup := pySample_nodup vis.length 100 rp.2
  have hvMem := pySample_mem_lt vis.length 100 rp.2
  set vis1 := applyAll clearBp vis rv.1 with hvis1
  have hvis1Len : vis1.length = vis.length := applyAll_length _ _ _
  have hvis1Count : vis1.countP (fun v => v.bp_systolic.isNone) = 100 := by
    rw [hvis1, countP_applyAll (fun v => v.bp_systolic.isNone) clearBp vis rv.1
      default hvNodup hvMem
      (fun i hi => isNone_eq_false_of_isSome
        (hvb _ (getD_mem_of_lt vis i default (hvMem i hi))))
      (fun x => rfl), hvb0, hvLen]
  set rd := npSample vis1.length 20 rv.2 with hrd
  have hdLen : rd.1.length = 20 :=
    npSample_length vis1.length 20 rv.2 (by omega)
  have hdMem := npSample_mem_lt vis1.length 20 rv.2
  set dups := rd.1.map (fun i => vis1.getD i default) with hdups
  have hdupsLen : dups.length = 20 := by rw [hdups, List.length_map, hdLen]
  have hdupsMem : ∀ x ∈ dups, x ∈ vis1 := by
    intro x hx
    obtain ⟨i, hi, he⟩ := List.mem_map.mp hx
    exact he ▸ getD_mem_of_lt vis1 i default (hdMem i hi)
  set vis2 := vis1 ++ dups with hvis2
  have hvis2Len : vis2.length = vis.length + 20 := by
    rw [hvis2, List.length_append, hvis1Len, hdupsLen]
  set rb := npSample vis2.length 10 rv.2 with hrb
  have hfinal : (injectDefects pats vis s).2.1
      = applyAll shiftVisitDate vis2 (npSample vis2.length 10 rd.2).1 := by
    rw [injectDefects_snd]
  have hbLen : (npSample vis2.length 10 rd.2).1.length = 10 :=
    npSample_length vis2.length 10 rd.2 (by omega)
  have hbNodup := npSample_nodup vis2.length 10 rd.2
  have hbMem := npSample_mem_lt vis2.length 10 rd.2
  refine ⟨inject_patients_length pats vis s, ?_, ?_, ?_, ?_, ?_⟩
  · exact ⟨rp.1, hpNodup, hpLen, hpMem, injectDefects_fst pats vis s⟩
  · rw [injectDefects_fst, countP_applyAll (fun a => a.education_level.isNone)
      clearEducation pats (pySample pats.length 50 s).1 default hpNodup hpMem
      (fun i hi => isNone_eq_false_of_isSome
        (hpe _ (getD_mem_of_lt pats i default (hpMem i hi))))
      (fun x => rfl), hpe0, hpLen]
  · rw [hfinal, applyAll_length, hvis2Len]
  · refine ⟨rv.1, vis1, dups, (npSample vis2.length 10 rd.2).1, hvNodup, hvLen,
      hvMem, hvis1, hvis1Count, hdupsLen, hdupsMem, hbNodup, hbLen, ?_, hfinal⟩
    intro i hi
    have hlt := hbMem i hi
    rw [hvis2Len] at hlt
    omega
  · rw [hfinal, countP_applyAll_invariant (fun (v : Visit) => v.bp_systolic.isNone)
      shiftVisitDate (fun x => rfl) vis2 _, hvis2, List.countP_append, hvis1Count]
    omega

/-- A fully populated patient row for exercising the defect injector. -/
def samplePatient : Patient :=
  { patient_id := "PAT_000001"
    first_name := "Marie"
    last_name := "Martin"
    birth_date := 0
    region := "Corse"
    postal_code := "2A100"
    education_level := some "Bachelor"
    is_employed := true
    has_partner := true
    receives_welfare := false
    has_health_insurance := true
    has_supplementary_insurance := true
    nationality := "French" }

/-- A fully populated visit row for exercising the defect injector. -/
def sampleVisit : Visit :=
  { visit_id := "VISIT_0000001"
    pregnancy_id := "PREG_000001"
    visit_number := 1
    visit_date := 18300
    gestational_week := 10
    provider_type := "Midwife"
    bp_systolic := some 120
    bp_diastolic := 80
    weight_kg := 60
    fundal_height_cm := none
    fetal_heart_rate := none
    protein_in_urine := false
    glucose_screening_done := false
    down_syndrome_screening_done := false
    ultrasound_done := true
    risk_score_at_visit := 1
    notes_length := 50 }

/-- A 50-row patients table with no nulls. -/
def cePatients : List Patient := List.replicate 50 samplePatient

/-- A 100-row visits table with no nulls. -/
def ceVisits : List Visit := List.replicate 100 sampleVisit

/-- C2 counterexample: the claim as stated is false.  On a null-free
100-row visits table the null injection touches every row, the 20
appended duplicates are therefore all nulled rows, and the final visits
table carries 120 rows with a NULL bp_systolic, not the configured 100:
the defect counts of the final tables need not equal the configured
counts. -/
theorem c2_counterexample_final_bp_count :
    (∀ a ∈ cePatients, a.education_level.isSome = true)
    ∧ (∀ v ∈ ceVisits, v.bp_systolic.isSome = true)
    ∧ 50 ≤ cePatients.length ∧ 100 ≤ ceVisits.length
    ∧ ((injectDefects cePatients ceVisits zeroState).2.1).countP
        (fun v => v.bp_systolic.isNone) = 120 := by
  with_unfolding_all decide

/-- C2 witness for the amended claim: the injector applied to concrete
null-free 50-patient and 100-visit tables, hypotheses discharged by
evaluation. -/
theorem c2_amended_defect_counts_witness :
    ((injectDefects cePatients ceVisits zeroState).1).length = cePatients.length
    ∧ (∃ eduIdx : List Nat,
        eduIdx.Nodup ∧ eduIdx.length = 50 ∧ (∀ i ∈ eduIdx, i < cePatients.length)
        ∧ (injectDefects cePatients ceVisits zeroState).1
            = applyAll clearEducation cePatients eduIdx)
    ∧ ((injectDefects cePatients ceVisits zeroState).1).countP
        (fun a => a.education_level.isNone) = 50
    ∧ ((injectDefects cePatients ceVisits zeroState).2.1).length
        = ceVisits.length + 20
    ∧ (∃ (bpIdx : List Nat) (vis1 dups : List Visit) (shiftIdx : List Nat),
        bpIdx.Nodup ∧ bpIdx.length = 100 ∧ (∀ i ∈ bpIdx, i < ceVisits.length)
        ∧ vis1 = applyAll clearBp ceVisits bpIdx
        ∧ vis1.countP (fun v => v.bp_systolic.isNone) = 100
        ∧ dups.length = 20 ∧ (∀ x ∈ dups, x ∈ vis1)
        ∧ shiftIdx.Nodup ∧ shiftIdx.length = 10
        ∧ (∀ i ∈ shiftIdx, i < vis1.length + 20)
        ∧ (injectDefects cePatients ceVisits zeroState).2.1
            = applyAll shiftVisitDate (vis1 ++ dups) shiftIdx)
    ∧ 100 ≤ ((injectDefects cePatients ceVisits zeroState).2.1).countP
        (fun v => v.bp_systolic.isNone) :=
  c2_amended_defect_counts cePatients ceVisits zeroState (by decide) (by decide)
    (by decide) (by decide)

/- ========================================================================
   Claim C1: reproducibility of a seeded run.
   ======================================================================== -/

theorem genPatientsAux_succ (i n : Nat) (s : GS) :
    (genPatientsAux i (n + 1) s).1
      = (genPatient i s).1 :: (genPatientsAux (i + 1) n (genPatient i s).2).1 := rfl

/-- C1: the script is NOT byte-identical across two runs with the fixed
seed 42.  The py and npy streams are functions of the seed, but the
Faker name fields come from Faker's own generator, which the script
never seeds: already the first patient's first_name differs between two
runs whose process entropy differs. -/
theorem c1_faker_unseeded_divergence : runScript 42 0 ≠ runScript 42 1 := by
  intro h
  have hmap : (runScript 42 0).patients.map (fun a => a.first_name)
      = (runScript 42 1).patients.map (fun a => a.first_name) := by rw [h]
  have r0 : runScript 42 0 = generateAll NUM_PATIENTS (runState 42 0) := rfl
  have r1 : runScript 42 1 = generateAll NUM_PATIENTS (runState 42 1) := rfl
  rw [r0, r1, generateAll_patients_eq, generateAll_patients_eq,
    inject_patients_map _ _ _ (fun (a : Patient) => a.first_name) (fun a => rfl),
    inject_patients_map _ _ _ (fun (a : Patient) => a.first_name) (fun a => rfl),
    generateTables_patients_eq, generateTables_patients_eq] at hmap
  have hNP : NUM_PATIENTS = 9999 + 1 := rfl
  have kk : ∀ e : Nat,
      ((genPatientsAux 0 NUM_PATIENTS (runState 42 e)).1.map
        (fun a => a.first_name)).head?
      = some (genPatient 0 (runState 42 e)).1.first_name := by
    intro e
    rw [hNP, genPatientsAux_succ, List.map_cons]
    rfl
  have hh := congrArg List.head? hmap
  rw [kk 0, kk 1] at hh
  have hname := Option.some.inj hh
  have hM : (genPatient 0 (runState 42 0)).1.first_name = "Marie" := by
    with_unfolding_all decide
  have hC : (genPatient 0 (runState 42 1)).1.first_name = "Camille" := by
    with_unfolding_all decide
  rw [hM, hC] at hname
  exact absurd hname (by decide)

/- ========================================================================
   Claims C8 and C9: the loader.
   ======================================================================== -/

theorem loadCsvData_log_structure (env : LoaderEnv) :
    ∀ (cfgs : List TableCfg) (db : DbState) (acc : List String),
      ∃ l : List String,
        (cfgs.foldl (loadOneTable env) (db, acc)).2 = acc ++ l
        ∧ List.Sublist (cfgs.map (fun c => "  Loading " ++ c.table ++ "...")) l
        ∧ (∀ c ∈ cfgs, ∀ e, env.csvLoad c.file = Except.error e →
            ("    Failed to load " ++ c.table ++ ": " ++ e) ∈ l) := by
  intro cfgs
  induction cfgs with
  | nil =>
    intro db acc
    exact ⟨[], by simp, List.nil_sublist _, by simp⟩
  | cons c rest ih =>
    intro db acc
    cases hcsv : env.csvLoad c.file with
    | ok m =>
      obtain ⟨l, h1, h2, h3⟩ := ih (dbReplace db c.table m)
        (acc ++ ["  Loading " ++ c.table ++ "...",
          "    Loaded " ++ toString m ++ " rows"])
      refine ⟨["  Loading " ++ c.table ++ "...",
        "    Loaded " ++ toString m ++ " rows"] ++ l, ?_, ?_, ?_⟩
      · rw [List.foldl_cons]
        have hstep : loadOneTable env (db, acc) c
            = (dbReplace db c.table m,
               acc ++ ["  Loading " ++ c.table ++ "...",
                 "    Loaded " ++ toString m ++ " rows"]) := by
          unfold loadOneTable
          rw [hcsv]
          simp
        rw [hstep, h1]
        simp
      · simp only [List.map_cons]
        exact List.Sublist.cons₂ _ (List.Sublist.cons _ h2)
      · intro c2 hc2 e he
        rcases List.mem_cons.mp hc2 with hq | hq
        · subst hq
          rw [hcsv] at he
          exact absurd he (by simp)
        · exact List.mem_append.mpr (Or.inr (h3 c2 hq e he))
    | error e0 =>
      obtain ⟨l, h1, h2, h3⟩ := ih db
        (acc ++ ["  Loading " ++ c.table ++ "...",
          "    Failed to load " ++ c.table ++ ": " ++ e0])
      refine ⟨["  Loading " ++ c.table ++ "...",
        "    Failed to load " ++ c.table ++ ": " ++ e0] ++ l, ?_, ?_, ?_⟩
      · rw [List.foldl_cons]
        have hstep : loadOneTable env (db, acc) c
            = (db, acc ++ ["  Loading " ++ c.table ++ "...",
                "    Failed to load " ++ c.table ++ ": " ++ e0]) := by
          unfold loadOneTable
          rw [hcsv]
          simp
        rw [hstep, h1]
        simp
      · simp only [List.map_cons]
        exact List.Sublist.cons₂ _ (List.Sublist.cons _ h2)
      · intro c2 hc2 e he
        rcases List.mem_cons.mp hc2 with hq | hq
        · subst hq
          rw [hcsv] at he
          have : e0 = e := by
            have := Except.error.inj he
            exact this
          subst this
          exact List.mem_append.mpr (Or.inl (by simp))
        · exact List.mem_append.mpr (Or.inr (h3 c2 hq e he))

/-- C8: the loader exits 1 immediately on a connection failure; with a
connection it attempts all five tables in order, logs every per-table
failure with the underlying message, and exits 0 after the verification
summary no matter how many loads failed. -/
theorem c8_loader_error_handling (env : LoaderEnv) :
    (env.connects = false → loaderMain env = (1, ["Connection failed"]))
    ∧ (env.connects = true →
        (loaderMain env).1 = 0
        ∧ List.Sublist (tablesConfig.map (fun c => "  Loading " ++ c.table ++ "..."))
            (loaderMain env).2
        ∧ (∀ c ∈ tablesConfig, ∀ e, env.csvLoad c.file = Except.error e →
            ("    Failed to load " ++ c.table ++ ": " ++ e) ∈ (loaderMain env).2)) := by
  constructor
  · intro h
    unfold loaderMain
    rw [h]
    rfl
  · intro h
    obtain ⟨l, h1, h2, h3⟩ := loadCsvData_log_structure env tablesConfig
      (createTables dbEmpty) []
    have hmain : loaderMain env
        = (0, ["Connected to PostgreSQL"]
            ++ (loadCsvData env (createTables dbEmpty)).2
            ++ verifyData (loadCsvData env (createTables dbEmpty)).1) := by
      unfold loaderMain
      rw [h]
      rfl
    have hlogs : (loadCsvData env (createTables dbEmpty)).2 = l := by
      unfold loadCsvData
      rw [h1]
      simp
    refine ⟨by rw [hmain], ?_, ?_⟩
    · rw [hmain]
      have h2b : List.Sublist
          (tablesConfig.map (fun c => "  Loading " ++ c.table ++ "..."))
          (loadCsvData env (createTables dbEmpty)).2 := by
        rw [hlogs]
        exact h2
      refine h2b.trans ?_
      have e1 := List.sublist_append_left
        (loadCsvData env (createTables dbEmpty)).2
        (verifyData (loadCsvData env (createTables dbEmpty)).1)
      have e2 := List.sublist_append_right
        (["Connected to PostgreSQL"])
        ((loadCsvData env (createTables dbEmpty)).2
          ++ verifyData (loadCsvData env (createTables dbEmpty)).1)
      have e3 := e1.trans e2
      rw [List.append_assoc]
      exact e3
    · intro c hc e he
      rw [hmain]
      simp only [List.mem_append]
      exact Or.inl (Or.inr (by rw [hlogs]; exact h3 c hc e he))

theorem foldl_load_preserve (env : LoaderEnv) :
    ∀ (cfgs : List TableCfg) (db : DbState) (acc : List String) (t : String),
      (∀ x ∈ cfgs, x.table ≠ t) →
      (cfgs.foldl (loadOneTable env) (db, acc)).1 t = db t := by
  intro cfgs
  induction cfgs with
  | nil => intro db acc t _; rfl
  | cons c rest ih =>
    intro db acc t hne
    rw [List.foldl_cons]
    cases hcsv : env.csvLoad c.file with
    | ok m =>
      have hstep : loadOneTable env (db, acc) c
          = (dbReplace db c.table m, (acc ++ ["  Loading " ++ c.table ++ "..."])
              ++ ["    Loaded " ++ toString m ++ " rows"]) := by
        unfold loadOneTable
        rw [hcsv]
      rw [hstep]
      rw [ih _ _ t (fun x hx => hne x (List.mem_cons_of_mem c hx))]
      unfold dbReplace
      rw [if_neg]
      exact fun hq => hne c (List.mem_cons_self c rest) (hq ▸ rfl)
    | error e0 =>
      have hstep : loadOneTable env (db, acc) c
          = (db, (acc ++ ["  Loading " ++ c.table ++ "..."])
              ++ ["    Failed to load " ++ c.table ++ ": " ++ e0]) := by
        unfold loadOneTable
        rw [hcsv]
      rw [hstep]
      exact ih _ _ t (fun x hx => hne x (List.mem_cons_of_mem c hx))

theorem foldl_load_db (env : LoaderEnv) :
    ∀ (cfgs : List TableCfg) (db : DbState) (acc : List String),
      cfgs.Pairwise (fun a b => a.table ≠ b.table) →
      ∀ c : TableCfg, c ∈ cfgs → ∀ n : Nat,
      env.csvLoad c.file = Except.ok n →
      (cfgs.foldl (loadOneTable env) (db, acc)).1 c.table = some n := by
  intro cfgs
  induction cfgs with
  | nil => intro db acc _ c hc; simp at hc
  | cons a rest ih =>
    intro db acc hpw c hc n hok
    rw [List.foldl_cons]
    rcases List.mem_cons.mp hc with hq | hq
    · subst hq
      have hstep : loadOneTable env (db, acc) c
          = (dbReplace db c.table n, (acc ++ ["  Loading " ++ c.table ++ "..."])
              ++ ["    Loaded " ++ toString n ++ " rows"]) := by
        unfold loadOneTable
        rw [hok]
      rw [hstep]
      rw [foldl_load_preserve env rest _ _ c.table
        (fun x hx => Ne.symm ((List.pairwise_cons.mp hpw).1 x hx))]
      unfold dbReplace
      rw [if_pos rfl]
    · cases hcsv : env.csvLoad a.file with
      | ok m =>
        have hstep : loadOneTable env (db, acc) a
            = (dbReplace db a.table m, (acc ++ ["  Loading " ++ a.table ++ "..."])
                ++ ["    Loaded " ++ toString m ++ " rows"]) := by
          unfold loadOneTable
          rw [hcsv]
        rw [hstep]
        exact ih _ _ (List.pairwise_cons.mp hpw).2 c hq n hok
      | error e0 =>
        have hstep : loadOneTable env (db, acc) a
            = (db, (acc ++ ["  Loading " ++ a.table ++ "..."])
                ++ ["    Failed to load " ++ a.table ++ ": " ++ e0]) := by
          unfold loadOneTable
          rw [hcsv]
        rw [hstep]
        exact ih _ _ (List.pairwise_cons.mp hpw).2 c hq n hok

/-- C9: for every table whose CSV load succeeds with n rows, the raw
table afterwards holds exactly those n rows (to_sql replace
semantics). -/
theorem c9_loaded_row_counts (env : LoaderEnv) (c : TableCfg) (n : Nat)
    (hc : c ∈ tablesConfig) (hok : env.csvLoad c.file = Except.ok n) :
    loaderFinalDb env c.table = some n := by
  unfold loaderFinalDb loadCsvData
  exact foldl_load_db env tablesConfig _ _ (by decide) c hc n hok

/-- Loader environment whose database connection fails. -/
def envConnFail : LoaderEnv := ⟨false, fun _ => Except.ok 0⟩

/-- Loader environment where one CSV load raises and the others load
seven rows. -/
def envPartial : LoaderEnv :=
  ⟨true, fun f => if f = "deliveries.csv" then Except.error "disk error"
    else Except.ok 7⟩

/-- C8 witness: concrete failing-connection and partial-failure runs. -/
theorem c8_loader_error_handling_witness :
    loaderMain envConnFail = (1, ["Connection failed"])
    ∧ (loaderMain envPartial).1 = 0
    ∧ List.Sublist (tablesConfig.map (fun c => "  Loading " ++ c.table ++ "..."))
        (loaderMain envPartial).2
    ∧ ("    Failed to load deliveries: disk error") ∈ (loaderMain envPartial).2 := by
  refine ⟨(c8_loader_error_handling envConnFail).1 rfl,
    ((c8_loader_error_handling envPartial).2 rfl).1,
    ((c8_loader_error_handling envPartial).2 rfl).2.1, ?_⟩
  exact ((c8_loader_error_handling envPartial).2 rfl).2.2
    ⟨"deliveries", "deliveries.csv", ["delivery_date"]⟩ (by decide)
    "disk error" (by rfl)

/-- C9 witness: in the partial-failure run the patients table holds the
seven CSV rows. -/
theorem c9_loaded_row_counts_witness :
    loaderFinalDb envPartial "patients" = some 7 :=
  c9_loaded_row_counts envPartial ⟨"patients", "patients.csv", ["birth_date"]⟩ 7
    (by decide) (by rfl)

/-- C1 divergence exhibited positively: with the seed fixed at 42 the
first generated patient's Faker first name is a function of the process
entropy, so the two runs write different patients.csv contents. -/
theorem c1_first_patient_names :
    (((runScript 42 0).patients.map (fun a => a.first_name)).head? = some "Marie")
    ∧ (((runScript 42 1).patients.map (fun a => a.first_name)).head?
        = some "Camille") := by
  have hNP : NUM_PATIENTS = 9999 + 1 := rfl
  constructor
  · have r0 : runScript 42 0 = generateAll NUM_PATIENTS (runState 42 0) := rfl
    rw [r0, generateAll_patients_eq,
      inject_patients_map _ _ _ (fun (a : Patient) => a.first_name) (fun a => rfl),
      generateTables_patients_eq, hNP, genPatientsAux_succ, List.map_cons,
      List.head?_cons]
    have hM : (genPatient 0 (runState 42 0)).1.first_name = "Marie" := by
      with_unfolding_all decide
    rw [hM]
  · have r1 : runScript 42 1 = generateAll NUM_PATIENTS (runState 42 1) := rfl
    rw [r1, generateAll_patients_eq,
      inject_patients_map _ _ _ (fun (a : Patient) => a.first_name) (fun a => rfl),
      generateTables_patients_eq, hNP, genPatientsAux_succ, List.map_cons,
      List.head?_cons]
    have hC : (genPatient 0 (runState 42 1)).1.first_name = "Camille" := by
      with_unfolding_all decide
    rw [hC]
